import Mathlib

/-!
Shallow embedding of the rebelzapp registration admission controller
(src/app/api/routers/registrations.py) and the realtime connection
registry (src/app/api/routers/websocket.py), together with theorems
checking the natural-language specification against the code.
-/

namespace Rebelz

/-- Mirror of RegistrationStatus (src/app/models/registration.py). -/
inductive RegistrationStatus where
  | pending
  | confirmed
  | cancelled
  | waitlist
deriving DecidableEq

/-- Mirror of the Event ORM model fields the admission controller reads
(src/app/models/event.py): id, optional integer capacity, title. -/
structure Event where
  id : Nat
  title : String
  capacity : Option Int
deriving DecidableEq

/-- Mirror of the EventRegistration ORM model fields the router touches
(src/app/models/registration.py). -/
structure EventRegistration where
  id : Nat
  event_id : Nat
  user_id : Nat
  status : RegistrationStatus
  notes : Option String
  emergency_contact : Option String
  dietary_restrictions : Option String
  special_needs : Option String
deriving DecidableEq

/-- Mirror of the AttendanceRecord ORM model
(src/app/models/registration.py); timestamps abstracted to Nat. -/
structure AttendanceRecord where
  id : Nat
  registration_id : Nat
  check_in_time : Option Nat
  check_out_time : Option Nat
  was_present : Bool
  notes : Option String
  recorded_by_user_id : Option Nat
deriving DecidableEq

/-- Mirror of Role (src/app/models/role.py): name plus permission names. -/
structure Role where
  name : String
  permissions : List String
deriving DecidableEq

/-- Mirror of the User fields used by the two routers
(src/app/models/user.py). -/
structure User where
  id : Nat
  is_active : Bool
  roles : List Role
deriving DecidableEq

/-- The database state the registration router operates on. -/
structure DB where
  events : List Event
  registrations : List EventRegistration
  attendance : List AttendanceRecord
  nextRegId : Nat
  nextAttId : Nat
deriving DecidableEq

/-- HTTP error outcomes raised by the router (HTTPException status codes). -/
inductive ApiError where
  | notFound (detail : String)
  | badRequest (detail : String)
  | forbidden (detail : String)
deriving DecidableEq

/-- Payload of POST /registrations (schemas RegistrationCreate). -/
structure RegistrationCreate where
  event_id : Nat
  notes : Option String
  emergency_contact : Option String
  dietary_restrictions : Option String
  special_needs : Option String
deriving DecidableEq

/-- db.get(Event, event_id). -/
def findEvent (db : DB) (event_id : Nat) : Option Event :=
  db.events.find? (fun e => e.id = event_id)

/-- db.get(EventRegistration, registration_id). -/
def findRegistration (db : DB) (registration_id : Nat) : Option EventRegistration :=
  db.registrations.find? (fun r => r.id = registration_id)

/-- The duplicate check of register_for_event: select a registration with
matching event_id and user_id, ignoring status. -/
def findExistingRegistration (db : DB) (event_id user_id : Nat) :
    Option EventRegistration :=
  db.registrations.find? (fun r => r.event_id = event_id && r.user_id = user_id)

/-- select(func.count(...)).where(event_id matches, status == CONFIRMED). -/
def confirmedCount (db : DB) (event_id : Nat) : Nat :=
  (db.registrations.filter
    (fun r => r.event_id = event_id && r.status = RegistrationStatus.confirmed)).length

/-- Python truthiness of the Optional[int] capacity column: None and 0 are
falsy, every other integer is truthy (the `if event.capacity:` test). -/
def capacityTruthy : Option Int → Bool
  | none => false
  | some c => c ≠ 0

/-- register_for_event (src/app/api/routers/registrations.py, lines 60-116):
404 if the event is missing, 400 if any registration for (event, user)
already exists, otherwise choose CONFIRMED or WAITLIST by the capacity
check and insert one new row. -/
def register_for_event (db : DB) (payload : RegistrationCreate) (current_user_id : Nat) :
    Except ApiError (DB × EventRegistration) :=
  match findEvent db payload.event_id with
  | none => .error (.notFound "Event not found")
  | some event =>
    if (findExistingRegistration db payload.event_id current_user_id).isSome then
      .error (.badRequest "Already registered for this event")
    else
      let initial_status :=
        if capacityTruthy event.capacity then
          if (confirmedCount db payload.event_id : Int) < event.capacity.getD 0 then
            RegistrationStatus.confirmed
          else
            RegistrationStatus.waitlist
        else
          RegistrationStatus.confirmed
      let registration : EventRegistration :=
        { id := db.nextRegId
          event_id := payload.event_id
          user_id := current_user_id
          status := initial_status
          notes := payload.notes
          emergency_contact := payload.emergency_contact
          dietary_restrictions := payload.dietary_restrictions
          special_needs := payload.special_needs }
      .ok ({ db with
              registrations := db.registrations ++ [registration]
              nextRegId := db.nextRegId + 1 }, registration)

/-- The state transition of the register endpoint: the new database on
success, the old one on an error (the transaction commits nothing). -/
def applyRegister (db : DB) (payload : RegistrationCreate) (current_user_id : Nat) : DB :=
  match register_for_event db payload current_user_id with
  | .ok (db2, _) => db2
  | .error _ => db

/-- A plain registration payload for an event (all free-text fields empty). -/
def plainPayload (event_id : Nat) : RegistrationCreate :=
  { event_id := event_id
    notes := none
    emergency_contact := none
    dietary_restrictions := none
    special_needs := none }

/-- N sequential registrations by the listed users against one event. -/
def registerMany (db : DB) (event_id : Nat) (users : List Nat) : DB :=
  users.foldl (fun d u => applyRegister d (plainPayload event_id) u) db

/-- The manage check of cancel_registration: any role with a manage_events
permission, or any role named admin. -/
def hasManagePermission (u : User) : Bool :=
  u.roles.any (fun role => role.permissions.contains "manage_events") ||
    u.roles.any (fun role => role.name = "admin")

/-- cancel_registration (src/app/api/routers/registrations.py, lines
193-214): 404 if missing, 403 unless owner or manager, otherwise hard
delete; the delete cascades to the attendance records of the registration
(relationship cascade all, delete-orphan in src/app/models/registration.py). -/
def cancel_registration (db : DB) (registration_id : Nat) (current_user : User) :
    Except ApiError DB :=
  match findRegistration db registration_id with
  | none => .error (.notFound "Registration not found")
  | some registration =>
    if registration.user_id ≠ current_user.id && !(hasManagePermission current_user) then
      .error (.forbidden "Can only cancel your own registrations")
    else
      .ok { db with
              registrations := db.registrations.filter (fun r => r.id ≠ registration_id)
              attendance := db.attendance.filter (fun a => a.registration_id ≠ registration_id) }

/-- Payload of PATCH /registrations/{id} (schemas RegistrationUpdate); a
none field was not provided. -/
structure RegistrationUpdate where
  status : Option RegistrationStatus
  notes : Option String
  emergency_contact : Option String
  dietary_restrictions : Option String
  special_needs : Option String
deriving DecidableEq

/-- The per-field guard of update_registration: a provided (not-None)
payload value overwrites the stored one, an absent one keeps it. -/
def updField {α : Type} (provided : Option α) (current : Option α) : Option α :=
  match provided with
  | some v => some v
  | none => current

/-- The field-by-field copy loop of update_registration: each field whose
payload value is not None overwrites the stored one. -/
def applyRegistrationUpdate (payload : RegistrationUpdate) (r : EventRegistration) :
    EventRegistration :=
  { r with
      status := payload.status.getD r.status
      notes := updField payload.notes r.notes
      emergency_contact := updField payload.emergency_contact r.emergency_contact
      dietary_restrictions := updField payload.dietary_restrictions r.dietary_restrictions
      special_needs := updField payload.special_needs r.special_needs }

/-- update_registration (src/app/api/routers/registrations.py, lines
164-190): admin only (gated by a dependency outside this function body);
404 if missing, otherwise overwrite exactly the provided fields. -/
def update_registration (db : DB) (registration_id : Nat) (payload : RegistrationUpdate) :
    Except ApiError (DB × EventRegistration) :=
  match findRegistration db registration_id with
  | none => .error (.notFound "Registration not found")
  | some registration =>
    let updated := applyRegistrationUpdate payload registration
    .ok ({ db with
            registrations := db.registrations.map
              (fun r => if r.id = registration_id then updated else r) }, updated)

/-- Payload of POST /registrations/attendance (schemas AttendanceCreate). -/
structure AttendanceCreate where
  registration_id : Nat
  was_present : Bool
  check_in_time : Option Nat
  check_out_time : Option Nat
  notes : Option String
deriving DecidableEq

/-- The duplicate check of record_attendance: any attendance row for the
registration. -/
def findExistingAttendance (db : DB) (registration_id : Nat) : Option AttendanceRecord :=
  db.attendance.find? (fun a => a.registration_id = registration_id)

/-- record_attendance (src/app/api/routers/registrations.py, lines 218-250):
404 if the registration is missing, 400 if attendance was already recorded,
otherwise insert one new AttendanceRecord. -/
def record_attendance (db : DB) (payload : AttendanceCreate) (current_user_id : Nat) :
    Except ApiError (DB × AttendanceRecord) :=
  match findRegistration db payload.registration_id with
  | none => .error (.notFound "Registration not found")
  | some _ =>
    if (findExistingAttendance db payload.registration_id).isSome then
      .error (.badRequest "Attendance already recorded")
    else
      let attendance : AttendanceRecord :=
        { id := db.nextAttId
          registration_id := payload.registration_id
          check_in_time := payload.check_in_time
          check_out_time := payload.check_out_time
          was_present := payload.was_present
          notes := payload.notes
          recorded_by_user_id := some current_user_id }
      .ok ({ db with
              attendance := db.attendance ++ [attendance]
              nextAttId := db.nextAttId + 1 }, attendance)

/-- Response of GET /registrations/stats/event/{id}
(schemas EventRegistrationStats); the float rate is embedded as a rational. -/
structure EventRegistrationStats where
  event_id : Nat
  event_title : String
  total_capacity : Option Int
  total_registrations : Nat
  confirmed_registrations : Nat
  pending_registrations : Nat
  waitlist_registrations : Nat
  cancelled_registrations : Nat
  attendance_rate : Option ℚ
deriving DecidableEq

/-- The attendance join of the stats endpoint: attendance rows whose
registration belongs to the event. -/
def attendanceForEvent (db : DB) (event_id : Nat) : List AttendanceRecord :=
  db.attendance.filter (fun a =>
    db.registrations.any (fun r => r.id = a.registration_id && r.event_id = event_id))

/-- get_event_registration_stats (src/app/api/routers/registrations.py,
lines 272-310): 404 if the event is missing, otherwise count the
registrations of the event by status and compute
attendance_rate = attended / confirmed * 100, None when confirmed is 0.
The endpoint writes nothing, so the database it returns alongside the
stats is the one it was given. -/
def get_event_registration_stats (db : DB) (event_id : Nat) :
    Except ApiError (DB × EventRegistrationStats) :=
  match findEvent db event_id with
  | none => .error (.notFound "Event not found")
  | some event =>
    let registrations := db.registrations.filter (fun r => r.event_id = event_id)
    let total_registrations := registrations.length
    let confirmed_registrations :=
      (registrations.filter (fun r => r.status = RegistrationStatus.confirmed)).length
    let pending_registrations :=
      (registrations.filter (fun r => r.status = RegistrationStatus.pending)).length
    let waitlist_registrations :=
      (registrations.filter (fun r => r.status = RegistrationStatus.waitlist)).length
    let cancelled_registrations :=
      (registrations.filter (fun r => r.status = RegistrationStatus.cancelled)).length
    let attended_count := ((attendanceForEvent db event_id).filter (fun a => a.was_present)).length
    let attendance_rate : Option ℚ :=
      if confirmed_registrations > 0 then
        some ((attended_count : ℚ) / (confirmed_registrations : ℚ) * 100)
      else
        none
    .ok (db,
        { event_id := event_id
          event_title := event.title
          total_capacity := event.capacity
          total_registrations := total_registrations
          confirmed_registrations := confirmed_registrations
          pending_registrations := pending_registrations
          waitlist_registrations := waitlist_registrations
          cancelled_registrations := cancelled_registrations
          attendance_rate := attendance_rate })

/-! ### Realtime connection registry (src/app/api/routers/websocket.py)

Websocket handles and user identities are embedded as naturals; the two
Python dicts of ConnectionManager become association lists, and the Python
set of connections per group becomes a duplicate-free list. -/

/-- Lookup in an association list (Python dict access / `in` test). -/
def alGet {α : Type} (m : List (Nat × α)) (k : Nat) : Option α :=
  (m.find? (fun p => p.1 = k)).map (fun p => p.2)

/-- Update or insert in an association list (Python dict assignment):
the first binding of the key is replaced in place, a new key is appended. -/
def alSet {α : Type} (m : List (Nat × α)) (k : Nat) (v : α) : List (Nat × α) :=
  match m with
  | [] => [(k, v)]
  | p :: rest => if p.1 = k then (k, v) :: rest else p :: alSet rest k v

/-- Deletion from an association list (Python del / guarded del). -/
def alErase {α : Type} (m : List (Nat × α)) (k : Nat) : List (Nat × α) :=
  m.filter (fun p => p.1 ≠ k)

/-- The ConnectionManager state: active_connections maps a group id to its
set of live connections, websocket_users maps a connection to the id of
its authenticated user. -/
structure WSState where
  active_connections : List (Nat × List Nat)
  websocket_users : List (Nat × Nat)
deriving DecidableEq

/-- The connection-registration block shared by ConnectionManager.connect
and the inline copy in websocket_endpoint (lines 142-148): ensure the
group has a set, add the websocket to it, record its user. -/
def registerConnection (s : WSState) (ws group_id user_id : Nat) : WSState :=
  let conns := (alGet s.active_connections group_id).getD []
  let conns2 := if ws ∈ conns then conns else conns ++ [ws]
  { active_connections := alSet s.active_connections group_id conns2
    websocket_users := alSet s.websocket_users ws user_id }

/-- ConnectionManager.disconnect: discard the websocket from the group set
(dropping the group key when the set empties) and delete its user entry;
returns the user id that was stored, as the Python method does. -/
def ws_disconnect (s : WSState) (ws group_id : Nat) : WSState × Option Nat :=
  let user := alGet s.websocket_users ws
  let ac :=
    match alGet s.active_connections group_id with
    | none => s.active_connections
    | some conns =>
      let conns2 := conns.filter (fun x => x ≠ ws)
      if conns2.isEmpty then alErase s.active_connections group_id
      else alSet s.active_connections group_id conns2
  ({ active_connections := ac, websocket_users := alErase s.websocket_users ws }, user)

/-- The cleanup of one failed send inside broadcast_to_group: discard the
connection from the group set of this group and delete its user entry. -/
def pruneConnection (s : WSState) (group_id c : Nat) : WSState :=
  { active_connections :=
      match alGet s.active_connections group_id with
      | none => s.active_connections
      | some conns => alSet s.active_connections group_id (conns.filter (fun x => x ≠ c))
    websocket_users := alErase s.websocket_users c }

/-- Result of one broadcast: the registry afterwards, the connections the
send was attempted to, those whose send succeeded, and those pruned. -/
structure BroadcastResult where
  state : WSState
  targets : List Nat
  delivered : List Nat
  pruned : List Nat
deriving DecidableEq

/-- ConnectionManager.broadcast_to_group (lines 66-84): skip a missing
group, skip the excluded connection, send to the rest; a connection whose
send raises (the failed predicate) is removed from both maps. -/
def broadcast_to_group (s : WSState) (group_id : Nat) (exc : Option Nat)
    (failed : Nat → Bool) : BroadcastResult :=
  match alGet s.active_connections group_id with
  | none => { state := s, targets := [], delivered := [], pruned := [] }
  | some conns =>
    let targets := conns.filter (fun c => some c ≠ exc)
    let delivered := targets.filter (fun c => !failed c)
    let pruned := targets.filter (fun c => failed c)
    { state := pruned.foldl (fun st c => pruneConnection st group_id c) s
      targets := targets
      delivered := delivered
      pruned := pruned }

/-- Mirror of the ChatMessage ORM fields the websocket handler writes
(src/app/models/chat_message.py). -/
structure ChatMessage where
  id : Nat
  group_id : Nat
  sender_id : Nat
  content : String
  message_type : String
deriving DecidableEq

/-- The database state the websocket endpoint touches: users, group
memberships as (group_id, user_id) pairs, chat messages. -/
structure ChatDB where
  users : List User
  memberships : List (Nat × Nat)
  messages : List ChatMessage
  nextMsgId : Nat
deriving DecidableEq

/-- A websocket credential, abstracted at the level get_websocket_user
reads it: it either fails to decode, decodes without a sub claim, or
decodes to a subject user id. -/
inductive Token where
  | invalid
  | noSub
  | sub (user_id : Nat)
deriving DecidableEq

/-- get_websocket_user (src/app/api/routers/websocket.py, lines 90-107):
None on a decode failure or a missing sub; otherwise the looked-up user
when it exists and is active, else None. -/
def get_websocket_user (db : ChatDB) (token : Token) : Option User :=
  match token with
  | .invalid => none
  | .noSub => none
  | .sub user_id =>
    match db.users.find? (fun u => u.id = user_id) with
    | none => none
    | some u => if u.is_active then some u else none

/-- Websocket close codes used by the endpoint. -/
inductive CloseCode where
  | policyViolation
  | internalError
deriving DecidableEq

/-- An outbound realtime event, paired with its payload identity. -/
inductive WSEvent where
  | user_joined (user_id group_id : Nat)
  | user_left (user_id group_id : Nat)
  | typing (user_id group_id : Nat) (is_typing : Bool)
  | chat_message (msg : ChatMessage)
deriving DecidableEq

/-- One broadcast the endpoint performed: the event and who it targeted. -/
structure SentBroadcast where
  event : WSEvent
  targets : List Nat
  delivered : List Nat
deriving DecidableEq

/-- Outcome of the connection phase of websocket_endpoint. -/
structure ConnectOutcome where
  closed : Option CloseCode
  state : WSState
  sent : List SentBroadcast
deriving DecidableEq

/-- The authentication, membership check, registration and join broadcast
of websocket_endpoint (lines 110-157): an invalid credential or inactive
user closes with the policy-violation code, a non-member closes with the
policy-violation code, otherwise the connection is added to both maps and
user_joined is broadcast to the group excluding the new connection. The
failed predicate tells which sends raise during the broadcast. -/
def websocket_connect (db : ChatDB) (s : WSState) (ws group_id : Nat)
    (token : Token) (failed : Nat → Bool) : ConnectOutcome :=
  match get_websocket_user db token with
  | none => { closed := some .policyViolation, state := s, sent := [] }
  | some user =>
    if db.memberships.any (fun m => m.1 = group_id && m.2 = user.id) then
      let s2 := registerConnection s ws group_id user.id
      let br := broadcast_to_group s2 group_id (some ws) failed
      { closed := none
        state := br.state
        sent := [{ event := .user_joined user.id group_id
                   targets := br.targets
                   delivered := br.delivered }] }
    else
      { closed := some .policyViolation, state := s, sent := [] }

/-- An inbound payload on an established connection, after JSON parsing:
the type discriminator selects typing, message, or anything else. -/
inductive InboundPayload where
  | typing (is_typing : Bool)
  | message (content : String) (message_type : String)
  | other
deriving DecidableEq

/-- Result of handling one inbound payload. -/
structure ReceiveOutcome where
  db : ChatDB
  state : WSState
  sent : List SentBroadcast
deriving DecidableEq

/-- The receive-loop body of websocket_endpoint (lines 160-211): a typing
payload is rebroadcast to the group excluding the sender and persists
nothing; a message payload persists one ChatMessage and broadcasts it to
the whole group with no exclusion; any other payload is ignored. -/
def websocket_receive (db : ChatDB) (s : WSState) (ws group_id : Nat)
    (user : User) (payload : InboundPayload) (failed : Nat → Bool) : ReceiveOutcome :=
  match payload with
  | .typing is_typing =>
    let br := broadcast_to_group s group_id (some ws) failed
    { db := db
      state := br.state
      sent := [{ event := .typing user.id group_id is_typing
                 targets := br.targets
                 delivered := br.delivered }] }
  | .message content message_type =>
    let msg : ChatMessage :=
      { id := db.nextMsgId
        group_id := group_id
        sender_id := user.id
        content := content
        message_type := message_type }
    let db2 := { db with messages := db.messages ++ [msg], nextMsgId := db.nextMsgId + 1 }
    let br := broadcast_to_group s group_id none failed
    { db := db2
      state := br.state
      sent := [{ event := .chat_message msg
                 targets := br.targets
                 delivered := br.delivered }] }
  | .other => { db := db, state := s, sent := [] }

/-- The key consistency between the two registry maps: a connection is
registered in websocket_users exactly when it sits in the connection set
of some group. -/
def MapsConsistent (s : WSState) : Prop :=
  ∀ ws : Nat, (alGet s.websocket_users ws).isSome ↔
    ∃ g conns, alGet s.active_connections g = some conns ∧ ws ∈ conns

/-- Each connection sits in the connection set of at most one group (true
of the endpoint, which binds a websocket to a single group path). -/
def AtMostOneGroup (s : WSState) : Prop :=
  ∀ g g2 conns conns2 ws, alGet s.active_connections g = some conns →
    alGet s.active_connections g2 = some conns2 →
    ws ∈ conns → ws ∈ conns2 → g = g2

/-- A connection can only sit in the connection set of the given group. -/
def OnlyInGroup (s : WSState) (ws group_id : Nat) : Prop :=
  ∀ g conns, alGet s.active_connections g = some conns → ws ∈ conns → g = group_id

/-- The registry operations of the websocket endpoint, with the argument
constraints under which the endpoint invokes them: a connect uses a fresh
websocket handle, a disconnect names the group its websocket connected to. -/
inductive RegistryOp where
  | connect (ws group_id user_id : Nat)
  | disconnect (ws group_id : Nat)
  | broadcast (group_id : Nat) (exc : Option Nat) (failed : Nat → Bool)

/-- The state transition of a registry operation. -/
def applyRegistryOp (s : WSState) : RegistryOp → WSState
  | .connect ws group_id user_id => registerConnection s ws group_id user_id
  | .disconnect ws group_id => (ws_disconnect s ws group_id).1
  | .broadcast group_id exc failed => (broadcast_to_group s group_id exc failed).state

/-- How the endpoint invokes each operation: connects use a websocket
handle that is not yet registered, disconnects use the group the websocket
connected to (or a websocket already pruned from every group). -/
def RegistryOpPrecond (s : WSState) : RegistryOp → Prop
  | .connect ws _ _ => alGet s.websocket_users ws = none
  | .disconnect ws group_id => OnlyInGroup s ws group_id
  | .broadcast _ _ _ => True

/-! ### Helper lemmas for the registration endpoints -/

/-- Unfolding register_for_event when the event is found and no duplicate
registration exists. -/
lemma register_ok (db : DB) (payload : RegistrationCreate) (uid : Nat) (ev : Event)
    (hev : findEvent db payload.event_id = some ev)
    (hdup : findExistingRegistration db payload.event_id uid = none) :
    register_for_event db payload uid =
      .ok ({ db with
              registrations := db.registrations ++
                [{ id := db.nextRegId
                   event_id := payload.event_id
                   user_id := uid
                   status :=
                     if capacityTruthy ev.capacity then
                       if (confirmedCount db payload.event_id : Int) < ev.capacity.getD 0 then
                         RegistrationStatus.confirmed
                       else RegistrationStatus.waitlist
                     else RegistrationStatus.confirmed
                   notes := payload.notes
                   emergency_contact := payload.emergency_contact
                   dietary_restrictions := payload.dietary_restrictions
                   special_needs := payload.special_needs }]
              nextRegId := db.nextRegId + 1 },
            { id := db.nextRegId
              event_id := payload.event_id
              user_id := uid
              status :=
                if capacityTruthy ev.capacity then
                  if (confirmedCount db payload.event_id : Int) < ev.capacity.getD 0 then
                    RegistrationStatus.confirmed
                  else RegistrationStatus.waitlist
                else RegistrationStatus.confirmed
              notes := payload.notes
              emergency_contact := payload.emergency_contact
              dietary_restrictions := payload.dietary_restrictions
              special_needs := payload.special_needs }) := by
  simp only [register_for_event, hev, hdup, Option.isSome_none, Bool.false_eq_true, if_false]

/-- Unfolding register_for_event when a duplicate registration exists. -/
lemma register_duplicate (db : DB) (payload : RegistrationCreate) (uid : Nat) (ev : Event)
    (hev : findEvent db payload.event_id = some ev)
    (hdup : (findExistingRegistration db payload.event_id uid).isSome) :
    register_for_event db payload uid =
      .error (.badRequest "Already registered for this event") := by
  simp only [register_for_event, hev, hdup, if_true]

/-- C10 helper: with a capacity of 0 the Python truthiness test is false. -/
lemma capacityTruthy_zero : capacityTruthy (some 0) = false := by
  simp [capacityTruthy]

/-! ### C10 -/

/-- C10: a Register call on an existing event whose capacity equals 0 (not
null) skips the capacity branch, because the check uses Python truthiness,
and the new registration is CONFIRMED: capacity 0 behaves like unlimited
capacity, not like a full event. -/
theorem register_capacity_zero_confirmed (db : DB) (payload : RegistrationCreate)
    (uid : Nat) (ev : Event)
    (hev : findEvent db payload.event_id = some ev)
    (hcap : ev.capacity = some 0)
    (hdup : findExistingRegistration db payload.event_id uid = none) :
    ∃ db2 r, register_for_event db payload uid = .ok (db2, r) ∧
      r.status = RegistrationStatus.confirmed := by
  refine ⟨_, _, register_ok db payload uid ev hev hdup, ?_⟩
  simp [hcap, capacityTruthy]

/-- Concrete database used by several witnesses: one event with id 1 and
capacity 0, no registrations. -/
def capZeroDB : DB :=
  { events := [{ id := 1, title := "Camp", capacity := some 0 }]
    registrations := []
    attendance := []
    nextRegId := 0
    nextAttId := 0 }

/-- C10 witness at a concrete database. -/
theorem register_capacity_zero_confirmed_witness :
    ∃ db2 r, register_for_event capZeroDB (plainPayload 1) 7 = .ok (db2, r) ∧
      r.status = RegistrationStatus.confirmed :=
  register_capacity_zero_confirmed capZeroDB (plainPayload 1) 7
    { id := 1, title := "Camp", capacity := some 0 } (by rfl) (by rfl) (by rfl)

/-! ### C2 -/

/-- C2: a Register call where any registration for the same (event, user)
pair already exists, whatever its status, fails with the duplicate error,
and the database is unchanged (no new row). -/
theorem register_duplicate_rejected (db : DB) (payload : RegistrationCreate)
    (uid : Nat) (ev : Event) (r0 : EventRegistration)
    (hev : findEvent db payload.event_id = some ev)
    (hr0 : r0 ∈ db.registrations)
    (hre : r0.event_id = payload.event_id)
    (hru : r0.user_id = uid) :
    register_for_event db payload uid =
      .error (.badRequest "Already registered for this event") ∧
    applyRegister db payload uid = db := by
  have hdup : (findExistingRegistration db payload.event_id uid).isSome :=
    List.find?_isSome.mpr ⟨r0, hr0, by simp [hre, hru]⟩
  have herr := register_duplicate db payload uid ev hev hdup
  exact ⟨herr, by simp [applyRegister, herr]⟩

/-- Concrete database for the C2 witness: user 7 already has a CANCELLED
registration for event 1. -/
def dupDB : DB :=
  { events := [{ id := 1, title := "Camp", capacity := some 5 }]
    registrations := [{ id := 0, event_id := 1, user_id := 7
                        status := RegistrationStatus.cancelled
                        notes := none, emergency_contact := none
                        dietary_restrictions := none, special_needs := none }]
    attendance := []
    nextRegId := 1
    nextAttId := 0 }

/-- C2 witness: even a CANCELLED existing registration makes a new Register
call fail and leaves the database unchanged. -/
theorem register_duplicate_rejected_witness :
    register_for_event dupDB (plainPayload 1) 7 =
      .error (.badRequest "Already registered for this event") ∧
    applyRegister dupDB (plainPayload 1) 7 = dupDB :=
  register_duplicate_rejected dupDB (plainPayload 1) 7
    { id := 1, title := "Camp", capacity := some 5 }
    { id := 0, event_id := 1, user_id := 7
      status := RegistrationStatus.cancelled
      notes := none, emergency_contact := none
      dietary_restrictions := none, special_needs := none }
    (by rfl) (by simp [dupDB]) (by rfl) (by rfl)

/-! ### C4 -/

/-- C4: an AdminUpdate on an existing registration overwrites exactly the
provided payload fields, keeps every absent field, never touches identity
fields, leaves every other row untouched, and applies no cross-field
validation: it succeeds with any status value, with no capacity check. -/
theorem update_registration_spec (db : DB) (registration_id : Nat)
    (payload : RegistrationUpdate) (r : EventRegistration)
    (hr : findRegistration db registration_id = some r) :
    ∃ db2 r2, update_registration db registration_id payload = .ok (db2, r2) ∧
      (∀ st, payload.status = some st → r2.status = st) ∧
      (payload.status = none → r2.status = r.status) ∧
      (∀ v, payload.notes = some v → r2.notes = some v) ∧
      (payload.notes = none → r2.notes = r.notes) ∧
      (∀ v, payload.emergency_contact = some v → r2.emergency_contact = some v) ∧
      (payload.emergency_contact = none → r2.emergency_contact = r.emergency_contact) ∧
      (∀ v, payload.dietary_restrictions = some v → r2.dietary_restrictions = some v) ∧
      (payload.dietary_restrictions = none → r2.dietary_restrictions = r.dietary_restrictions) ∧
      (∀ v, payload.special_needs = some v → r2.special_needs = some v) ∧
      (payload.special_needs = none → r2.special_needs = r.special_needs) ∧
      r2.id = r.id ∧ r2.event_id = r.event_id ∧ r2.user_id = r.user_id ∧
      db2.registrations =
        db.registrations.map (fun x => if x.id = registration_id then r2 else x) ∧
      db2.events = db.events ∧ db2.attendance = db.attendance := by
  have hok : update_registration db registration_id payload =
      .ok ({ db with
              registrations := db.registrations.map
                (fun x => if x.id = registration_id then applyRegistrationUpdate payload r else x) },
            applyRegistrationUpdate payload r) := by
    simp only [update_registration, hr]
  refine ⟨_, applyRegistrationUpdate payload r, hok, ?_⟩
  unfold applyRegistrationUpdate updField
  refine ⟨?_, ?_, ?_, ?_, ?_, ?_, ?_, ?_, ?_, ?_, rfl, rfl, rfl, rfl, rfl, rfl⟩ <;>
    first
    | (intro v hv; simp [hv])
    | (intro hv; simp [hv])

/-- Concrete database for the C4 witness: event 1 has capacity 1 and its
CONFIRMED count is already 1, yet setting the PENDING registration 5 to
CONFIRMED succeeds with no capacity re-check. -/
def overfullDB : DB :=
  { events := [{ id := 1, title := "Camp", capacity := some 1 }]
    registrations :=
      [{ id := 4, event_id := 1, user_id := 7
         status := RegistrationStatus.confirmed
         notes := none, emergency_contact := none
         dietary_restrictions := none, special_needs := none },
       { id := 5, event_id := 1, user_id := 8
         status := RegistrationStatus.pending
         notes := some "old", emergency_contact := none
         dietary_restrictions := none, special_needs := none }]
    attendance := []
    nextRegId := 6
    nextAttId := 0 }

/-- The status-only payload used by the C4 witness. -/
def statusOnlyUpdate : RegistrationUpdate :=
  { status := some RegistrationStatus.confirmed
    notes := none
    emergency_contact := none
    dietary_restrictions := none
    special_needs := none }

/-- C4 witness: on a database whose event already has CONFIRMED count equal
to its capacity, AdminUpdate still sets another registration to CONFIRMED,
and the absent fields keep their values. -/
theorem update_registration_spec_witness :
    (confirmedCount overfullDB 1 = 1 ∧
      (findEvent overfullDB 1).map (fun e => e.capacity) = some (some 1)) ∧
    ∃ db2 r2, update_registration overfullDB 5 statusOnlyUpdate = .ok (db2, r2) ∧
      (∀ st, statusOnlyUpdate.status = some st → r2.status = st) ∧
      (statusOnlyUpdate.status = none → r2.status =
        RegistrationStatus.pending) ∧
      (∀ v, statusOnlyUpdate.notes = some v → r2.notes = some v) ∧
      (statusOnlyUpdate.notes = none → r2.notes = some "old") ∧
      (∀ v, statusOnlyUpdate.emergency_contact = some v → r2.emergency_contact = some v) ∧
      (statusOnlyUpdate.emergency_contact = none → r2.emergency_contact = none) ∧
      (∀ v, statusOnlyUpdate.dietary_restrictions = some v → r2.dietary_restrictions = some v) ∧
      (statusOnlyUpdate.dietary_restrictions = none → r2.dietary_restrictions = none) ∧
      (∀ v, statusOnlyUpdate.special_needs = some v → r2.special_needs = some v) ∧
      (statusOnlyUpdate.special_needs = none → r2.special_needs = none) ∧
      r2.id = 5 ∧ r2.event_id = 1 ∧ r2.user_id = 8 ∧
      db2.registrations =
        overfullDB.registrations.map (fun x => if x.id = 5 then r2 else x) ∧
      db2.events = overfullDB.events ∧ db2.attendance = overfullDB.attendance :=
  ⟨by constructor <;> rfl,
   update_registration_spec overfullDB 5 statusOnlyUpdate
     { id := 5, event_id := 1, user_id := 8
       status := RegistrationStatus.pending
       notes := some "old", emergency_contact := none
       dietary_restrictions := none, special_needs := none }
     (by rfl)⟩

/-! ### C5 -/

/-- The state transition of the attendance endpoint: the new database on
success, the old one on an error. -/
def applyRecordAttendance (db : DB) (payload : AttendanceCreate) (uid : Nat) : DB :=
  match record_attendance db payload uid with
  | .ok (db2, _) => db2
  | .error _ => db

/-- C5: RecordAttendance fails with NotFound when the registration is
missing; fails with the duplicate error, changing nothing, when an
attendance record already exists; and otherwise appends exactly one
AttendanceRecord carrying the payload fields, whatever the registration
status is (the status is never inspected). -/
theorem record_attendance_spec (db : DB) (payload : AttendanceCreate) (uid : Nat) :
    (findRegistration db payload.registration_id = none →
      record_attendance db payload uid = .error (.notFound "Registration not found") ∧
      applyRecordAttendance db payload uid = db) ∧
    (∀ r a0, findRegistration db payload.registration_id = some r →
      a0 ∈ db.attendance → a0.registration_id = payload.registration_id →
      record_attendance db payload uid = .error (.badRequest "Attendance already recorded") ∧
      applyRecordAttendance db payload uid = db) ∧
    (∀ r, findRegistration db payload.registration_id = some r →
      findExistingAttendance db payload.registration_id = none →
      ∃ db2 a, record_attendance db payload uid = .ok (db2, a) ∧
        db2.attendance = db.attendance ++ [a] ∧
        db2.registrations = db.registrations ∧ db2.events = db.events ∧
        a.registration_id = payload.registration_id ∧
        a.was_present = payload.was_present ∧
        a.check_in_time = payload.check_in_time ∧
        a.check_out_time = payload.check_out_time ∧
        a.notes = payload.notes ∧
        a.recorded_by_user_id = some uid) := by
  refine ⟨?_, ?_, ?_⟩
  · intro hmiss
    have h1 : record_attendance db payload uid = .error (.notFound "Registration not found") := by
      simp only [record_attendance, hmiss]
    exact ⟨h1, by simp [applyRecordAttendance, h1]⟩
  · intro r a0 hr ha0 hreg
    have hdup : (findExistingAttendance db payload.registration_id).isSome :=
      List.find?_isSome.mpr ⟨a0, ha0, by simp [hreg]⟩
    have h1 : record_attendance db payload uid =
        .error (.badRequest "Attendance already recorded") := by
      simp only [record_attendance, hr, hdup, if_true]
    exact ⟨h1, by simp [applyRecordAttendance, h1]⟩
  · intro r hr hnone
    refine ⟨{ db with
                attendance := db.attendance ++
                  [{ id := db.nextAttId
                     registration_id := payload.registration_id
                     check_in_time := payload.check_in_time
                     check_out_time := payload.check_out_time
                     was_present := payload.was_present
                     notes := payload.notes
                     recorded_by_user_id := some uid }]
                nextAttId := db.nextAttId + 1 },
            { id := db.nextAttId
              registration_id := payload.registration_id
              check_in_time := payload.check_in_time
              check_out_time := payload.check_out_time
              was_present := payload.was_present
              notes := payload.notes
              recorded_by_user_id := some uid }, ?_,
            rfl, rfl, rfl, rfl, rfl, rfl, rfl, rfl, rfl⟩
    simp only [record_attendance, hr, hnone, Option.isSome_none, Bool.false_eq_true, if_false]

/-- Concrete database for the C5 witness: a WAITLIST registration with no
attendance yet. -/
def waitlistRegDB : DB :=
  { events := [{ id := 1, title := "Camp", capacity := some 1 }]
    registrations := [{ id := 3, event_id := 1, user_id := 7
                        status := RegistrationStatus.waitlist
                        notes := none, emergency_contact := none
                        dietary_restrictions := none, special_needs := none }]
    attendance := []
    nextRegId := 4
    nextAttId := 0 }

/-- The attendance payload used by the C5 witness. -/
def attPayload : AttendanceCreate :=
  { registration_id := 3
    was_present := true
    check_in_time := some 90
    check_out_time := none
    notes := none }

/-- C5 witness: recording attendance for a WAITLIST registration succeeds
and appends exactly one record. -/
theorem record_attendance_spec_witness :
    ∃ db2 a, record_attendance waitlistRegDB attPayload 2 = .ok (db2, a) ∧
      db2.attendance = waitlistRegDB.attendance ++ [a] ∧
      db2.registrations = waitlistRegDB.registrations ∧ db2.events = waitlistRegDB.events ∧
      a.registration_id = attPayload.registration_id ∧
      a.was_present = attPayload.was_present ∧
      a.check_in_time = attPayload.check_in_time ∧
      a.check_out_time = attPayload.check_out_time ∧
      a.notes = attPayload.notes ∧
      a.recorded_by_user_id = some 2 :=
  (record_attendance_spec waitlistRegDB attPayload 2).2.2
    { id := 3, event_id := 1, user_id := 7
      status := RegistrationStatus.waitlist
      notes := none, emergency_contact := none
      dietary_restrictions := none, special_needs := none }
    (by rfl) (by rfl)

/-! ### C3 -/

/-- The database produced by a successful cancel: the registration row and
its attendance records are gone, everything else is untouched. -/
def cancelResult (db : DB) (registration_id : Nat) : DB :=
  { db with
      registrations := db.registrations.filter (fun r => r.id ≠ registration_id)
      attendance := db.attendance.filter (fun a => a.registration_id ≠ registration_id) }

/-- Unfolding cancel_registration in the authorized case. -/
lemma cancel_ok (db : DB) (registration_id : Nat) (actor : User) (r : EventRegistration)
    (hr : findRegistration db registration_id = some r)
    (hok : r.user_id = actor.id ∨ hasManagePermission actor = true) :
    cancel_registration db registration_id actor = .ok (cancelResult db registration_id) := by
  have hcond : (decide (r.user_id ≠ actor.id) && !hasManagePermission actor) = false := by
    rcases hok with h | h <;> simp [h]
  simp only [cancel_registration, hr, hcond, Bool.false_eq_true, if_false]
  rfl

/-- C3: Cancel fails with NotFound when the registration id is unknown,
fails with Forbidden when the actor neither owns the registration nor has
the management capability, and otherwise hard-deletes the row together
with its attendance records; when the deleted row was the only
registration of its (event, user) pair, a subsequent Register for that
pair on the surviving event is accepted. -/
theorem cancel_registration_spec (db : DB) (registration_id : Nat) (actor : User) :
    (findRegistration db registration_id = none →
      cancel_registration db registration_id actor =
        .error (.notFound "Registration not found")) ∧
    (∀ r, findRegistration db registration_id = some r →
      r.user_id ≠ actor.id → hasManagePermission actor = false →
      cancel_registration db registration_id actor =
        .error (.forbidden "Can only cancel your own registrations")) ∧
    (∀ r, findRegistration db registration_id = some r →
      (r.user_id = actor.id ∨ hasManagePermission actor = true) →
      cancel_registration db registration_id actor = .ok (cancelResult db registration_id)) ∧
    (∀ r db2 ev, findRegistration db registration_id = some r →
      cancel_registration db registration_id actor = .ok db2 →
      findEvent db r.event_id = some ev →
      (∀ x ∈ db.registrations,
        x.event_id = r.event_id → x.user_id = r.user_id → x.id = registration_id) →
      ∃ db3 r2, register_for_event db2 (plainPayload r.event_id) r.user_id = .ok (db3, r2)) := by
  refine ⟨?_, ?_, ?_, ?_⟩
  · intro hmiss
    simp only [cancel_registration, hmiss]
  · intro r hr hown hperm
    have hcond : (decide (r.user_id ≠ actor.id) && !hasManagePermission actor) = true := by
      simp [hown, hperm]
    simp only [cancel_registration, hr, hcond, if_true]
  · intro r hr hok
    exact cancel_ok db registration_id actor r hr hok
  · intro r db2 ev hr hdel hev huniq
    have hok2 : r.user_id = actor.id ∨ hasManagePermission actor = true := by
      by_cases h : r.user_id = actor.id
      · exact Or.inl h
      · right
        by_contra hperm
        have hperm2 : hasManagePermission actor = false := by
          simpa using hperm
        have hcond : (decide (r.user_id ≠ actor.id) && !hasManagePermission actor) = true := by
          simp [h, hperm2]
        simp only [cancel_registration, hr, hcond, if_true] at hdel
        exact absurd hdel (by simp)
    have hdb2 : db2 = cancelResult db registration_id := by
      have hcalc := cancel_ok db registration_id actor r hr hok2
      rw [hcalc] at hdel
      injection hdel with h
      exact h.symm
    have hev2 : findEvent db2 (plainPayload r.event_id).event_id = some ev := by
      rw [hdb2]
      exact hev
    have hdup2 : findExistingRegistration db2
        (plainPayload r.event_id).event_id r.user_id = none := by
      rw [hdb2]
      apply List.find?_eq_none.mpr
      intro x hx hpx
      rcases List.mem_filter.mp hx with ⟨hxmem, hxid⟩
      have hxe : x.event_id = r.event_id := by
        have h1 : (decide (x.event_id = (plainPayload r.event_id).event_id)) = true :=
          Bool.and_elim_left hpx
        simpa [plainPayload] using h1
      have hxu : x.user_id = r.user_id := by
        have h1 : (decide (x.user_id = r.user_id)) = true := Bool.and_elim_right hpx
        simpa using h1
      have := huniq x hxmem hxe hxu
      simp [this] at hxid
    exact ⟨_, _, register_ok db2 (plainPayload r.event_id) r.user_id ev hev2 hdup2⟩

/-- Concrete registration for the C3 witness. -/
def reg3 : EventRegistration :=
  { id := 3, event_id := 1, user_id := 7
    status := RegistrationStatus.confirmed
    notes := none, emergency_contact := none
    dietary_restrictions := none, special_needs := none }

/-- Concrete event for the C3 witness. -/
def ev1 : Event := { id := 1, title := "Camp", capacity := some 5 }

/-- Concrete database for the C3 witness: registration 3 of user 7 on
event 1, with one attendance record attached. -/
def cancelDB : DB :=
  { events := [ev1]
    registrations := [reg3]
    attendance := [{ id := 0, registration_id := 3
                     check_in_time := none, check_out_time := none
                     was_present := true, notes := none
                     recorded_by_user_id := some 2 }]
    nextRegId := 4
    nextAttId := 1 }

/-- The owner of registration 3, holding no management role. -/
def owner7 : User := { id := 7, is_active := true, roles := [] }

/-- C3 witness: the owner cancels registration 3, which hard-deletes the
row and its attendance record, and a fresh Register for the same
(event, user) pair is then accepted. -/
theorem cancel_registration_spec_witness :
    cancel_registration cancelDB 3 owner7 = .ok (cancelResult cancelDB 3) ∧
    ∃ db3 r2, register_for_event (cancelResult cancelDB 3) (plainPayload 1) 7 =
      .ok (db3, r2) :=
  ⟨(cancel_registration_spec cancelDB 3 owner7).2.2.1 reg3 (by rfl) (Or.inl rfl),
   (cancel_registration_spec cancelDB 3 owner7).2.2.2 reg3 (cancelResult cancelDB 3) ev1
     (by rfl)
     ((cancel_registration_spec cancelDB 3 owner7).2.2.1 reg3 (by rfl) (Or.inl rfl))
     (by rfl) (by decide)⟩

/-! ### C6 -/

/-- Count of the registrations of an event holding a given status. -/
def statusCount (db : DB) (event_id : Nat) (st : RegistrationStatus) : Nat :=
  (db.registrations.filter (fun r => r.event_id = event_id && r.status = st)).length

/-- Count of attendance records of an event with was_present true. -/
def attendedCount (db : DB) (event_id : Nat) : Nat :=
  ((attendanceForEvent db event_id).filter (fun a => a.was_present)).length

/-- C6 counterexample: event 1 has 2 CONFIRMED registrations and 1
attended attendance record; the claim says the rate equals
attended / confirmed = 1/2, but the endpoint returns 50 (a percentage). -/
def statsDB : DB :=
  { events := [{ id := 1, title := "Camp", capacity := some 5 }]
    registrations :=
      [{ id := 0, event_id := 1, user_id := 7
         status := RegistrationStatus.confirmed
         notes := none, emergency_contact := none
         dietary_restrictions := none, special_needs := none },
       { id := 1, event_id := 1, user_id := 8
         status := RegistrationStatus.confirmed
         notes := none, emergency_contact := none
         dietary_restrictions := none, special_needs := none }]
    attendance := [{ id := 0, registration_id := 0
                     check_in_time := none, check_out_time := none
                     was_present := true, notes := none
                     recorded_by_user_id := some 2 }]
    nextRegId := 2
    nextAttId := 1 }

/-- C6 counterexample: at statsDB the returned attendance rate is 50,
which is not attended / confirmed = 1/2 as the claim states; the code
multiplies the quotient by 100. -/
theorem stats_rate_counterexample :
    ∃ st, get_event_registration_stats statsDB 1 = .ok (statsDB, st) ∧
      st.confirmed_registrations = 2 ∧
      attendedCount statsDB 1 = 1 ∧
      st.attendance_rate = some 50 ∧
      st.attendance_rate ≠
        some ((attendedCount statsDB 1 : ℚ) / (st.confirmed_registrations : ℚ)) := by
  refine ⟨_, rfl, by decide, by decide, ?_, ?_⟩
  · norm_num [statsDB, attendanceForEvent]
  · norm_num [statsDB, attendanceForEvent, attendedCount]

/-- C6 amended: Stats on an existing event mutates no state and returns
the counts of the registrations of that event by status; the attendance
rate is 100 times attended / confirmed (a percentage), omitted when the
CONFIRMED count is 0. -/
theorem stats_spec (db : DB) (event_id : Nat) (ev : Event)
    (hev : findEvent db event_id = some ev) :
    ∃ st, get_event_registration_stats db event_id = .ok (db, st) ∧
      st.event_id = event_id ∧
      st.event_title = ev.title ∧
      st.total_capacity = ev.capacity ∧
      st.total_registrations =
        (db.registrations.filter (fun r => r.event_id = event_id)).length ∧
      st.confirmed_registrations = confirmedCount db event_id ∧
      st.pending_registrations = statusCount db event_id RegistrationStatus.pending ∧
      st.waitlist_registrations = statusCount db event_id RegistrationStatus.waitlist ∧
      st.cancelled_registrations = statusCount db event_id RegistrationStatus.cancelled ∧
      (confirmedCount db event_id = 0 → st.attendance_rate = none) ∧
      (0 < confirmedCount db event_id →
        st.attendance_rate =
          some ((attendedCount db event_id : ℚ) / (confirmedCount db event_id : ℚ) * 100)) := by
  have hsc : ∀ st : RegistrationStatus,
      ((db.registrations.filter (fun r => r.event_id = event_id)).filter
        (fun r => r.status = st)).length = statusCount db event_id st := by
    intro st
    rw [List.filter_filter]
    apply congrArg List.length
    apply List.filter_congr
    intro a _
    exact Bool.and_comm _ _
  have hcc : ((db.registrations.filter (fun r => r.event_id = event_id)).filter
      (fun r => r.status = RegistrationStatus.confirmed)).length = confirmedCount db event_id :=
    hsc RegistrationStatus.confirmed
  simp only [get_event_registration_stats, hev]
  refine ⟨_, rfl, rfl, rfl, rfl, rfl, hcc, hsc _, hsc _, hsc _, ?_, ?_⟩
  · intro hzero
    simp only [hcc, hzero]
    rfl
  · intro hpos
    have hne : confirmedCount db event_id > 0 := hpos
    simp only [hcc]
    rw [if_pos hne]
    rfl

/-- C6 witness at the concrete counterexample database: the rate is
attended / confirmed * 100. -/
theorem stats_spec_witness :
    ∃ st, get_event_registration_stats statsDB 1 = .ok (statsDB, st) ∧
      st.event_id = 1 ∧
      st.event_title = "Camp" ∧
      st.total_capacity = some 5 ∧
      st.total_registrations =
        (statsDB.registrations.filter (fun r => r.event_id = 1)).length ∧
      st.confirmed_registrations = confirmedCount statsDB 1 ∧
      st.pending_registrations = statusCount statsDB 1 RegistrationStatus.pending ∧
      st.waitlist_registrations = statusCount statsDB 1 RegistrationStatus.waitlist ∧
      st.cancelled_registrations = statusCount statsDB 1 RegistrationStatus.cancelled ∧
      (confirmedCount statsDB 1 = 0 → st.attendance_rate = none) ∧
      (0 < confirmedCount statsDB 1 →
        st.attendance_rate =
          some ((attendedCount statsDB 1 : ℚ) / (confirmedCount statsDB 1 : ℚ) * 100)) :=
  stats_spec statsDB 1 { id := 1, title := "Camp", capacity := some 5 } (by rfl)

/-! ### C1: admission control, proved through a canonical view of the
registration list built up by sequential Register calls. -/

/-- The fields of a registration that the admission logic reads. -/
def regView (r : EventRegistration) : Nat × Nat × RegistrationStatus :=
  (r.event_id, r.user_id, r.status)

/-- The canonical (event, user, status) views produced by sequential
registrations against one event of capacity cap, starting at arrival
position pos: arrivals seated while pos < cap are CONFIRMED, later ones
WAITLIST. -/
def seqViews (event_id cap pos : Nat) : List Nat → List (Nat × Nat × RegistrationStatus)
  | [] => []
  | u :: rest =>
    (event_id, u,
      if pos < cap then RegistrationStatus.confirmed else RegistrationStatus.waitlist) ::
      seqViews event_id cap (pos + 1) rest

lemma seqViews_users (event_id cap : Nat) :
    ∀ (pos : Nat) (us : List Nat),
      (seqViews event_id cap pos us).map (fun t => t.2.1) = us := by
  intro pos us
  induction us generalizing pos with
  | nil => rfl
  | cons u rest ih => simp [seqViews, ih]

lemma seqViews_append (event_id cap : Nat) :
    ∀ (us : List Nat) (pos u : Nat),
      seqViews event_id cap pos (us ++ [u]) =
        seqViews event_id cap pos us ++
          [(event_id, u,
            if pos + us.length < cap then RegistrationStatus.confirmed
            else RegistrationStatus.waitlist)] := by
  intro us
  induction us with
  | nil => simp [seqViews]
  | cons v rest ih =>
    intro pos u
    have harith : pos + 1 + rest.length = pos + (rest.length + 1) := by omega
    simp [seqViews, ih, harith]

lemma seqViews_countP_confirmed (event_id cap : Nat) :
    ∀ (us : List Nat) (pos : Nat),
      (seqViews event_id cap pos us).countP
        (fun t => t.1 = event_id && t.2.2 = RegistrationStatus.confirmed) =
        min (pos + us.length) cap - min pos cap := by
  intro us
  induction us with
  | nil =>
    intro pos
    simp only [seqViews, List.countP_nil, List.length_nil]
    omega
  | cons u rest ih =>
    intro pos
    simp only [seqViews, List.countP_cons, List.length_cons, ih (pos + 1)]
    by_cases h : pos < cap
    · rw [if_pos h]
      simp
      omega
    · rw [if_neg h]
      simp
      omega

lemma seqViews_countP_waitlist (event_id cap : Nat) :
    ∀ (us : List Nat) (pos : Nat),
      (seqViews event_id cap pos us).countP
        (fun t => t.1 = event_id && t.2.2 = RegistrationStatus.waitlist) =
        (pos + us.length - min (pos + us.length) cap) - (pos - min pos cap) := by
  intro us
  induction us with
  | nil =>
    intro pos
    simp only [seqViews, List.countP_nil, List.length_nil]
    omega
  | cons u rest ih =>
    intro pos
    simp only [seqViews, List.countP_cons, List.length_cons, ih (pos + 1)]
    by_cases h : pos < cap
    · rw [if_pos h]
      simp
      omega
    · rw [if_neg h]
      simp
      omega

lemma seqViews_getElem? (event_id cap : Nat) :
    ∀ (us : List Nat) (pos i : Nat),
      (seqViews event_id cap pos us)[i]? =
        us[i]?.map (fun u => (event_id, u,
          if pos + i < cap then RegistrationStatus.confirmed
          else RegistrationStatus.waitlist)) := by
  intro us
  induction us with
  | nil => intro pos i; simp [seqViews]
  | cons u rest ih =>
    intro pos i
    cases i with
    | zero => simp [seqViews]
    | succ j =>
      simp only [seqViews, List.getElem?_cons_succ, ih (pos + 1) j]
      have harith : pos + 1 + j = pos + (j + 1) := by omega
      rw [harith]

lemma counts_by_views (db : DB) (event_id : Nat) (st : RegistrationStatus) :
    statusCount db event_id st =
      (db.registrations.map regView).countP (fun t => t.1 = event_id && t.2.2 = st) := by
  unfold statusCount
  rw [← List.countP_eq_length_filter, List.countP_map]
  rfl

lemma confirmedCount_eq_statusCount (db : DB) (event_id : Nat) :
    confirmedCount db event_id = statusCount db event_id RegistrationStatus.confirmed := rfl

lemma findExisting_none_of_views (db : DB) (event_id cap : Nat) (processed : List Nat)
    (hv : db.registrations.map regView = seqViews event_id cap 0 processed)
    (u : Nat) (hu : u ∉ processed) :
    findExistingRegistration db event_id u = none := by
  apply List.find?_eq_none.mpr
  intro r hr hpr
  have h1 : r.user_id = u := by
    have h2 : (decide (r.user_id = u)) = true := Bool.and_elim_right hpr
    simpa using h2
  apply hu
  have hmem : regView r ∈ seqViews event_id cap 0 processed := by
    rw [← hv]
    exact List.mem_map_of_mem regView hr
  have h3 : (regView r).2.1 ∈ (seqViews event_id cap 0 processed).map (fun t => t.2.1) :=
    List.mem_map_of_mem _ hmem
  rw [seqViews_users] at h3
  simpa [regView, h1] using h3

lemma applyRegister_step (db : DB) (event_id : Nat) (ev : Event) (cap : Nat)
    (hcpos : 0 < cap)
    (hev : findEvent db event_id = some ev)
    (hcap : ev.capacity = some (cap : Int))
    (processed : List Nat)
    (hv : db.registrations.map regView = seqViews event_id cap 0 processed)
    (u : Nat) (hu : u ∉ processed) :
    (applyRegister db (plainPayload event_id) u).registrations.map regView =
      seqViews event_id cap 0 (processed ++ [u]) ∧
    (applyRegister db (plainPayload event_id) u).events = db.events := by
  have hdup : findExistingRegistration db (plainPayload event_id).event_id u = none :=
    findExisting_none_of_views db event_id cap processed hv u hu
  have hreg := register_ok db (plainPayload event_id) u ev hev hdup
  have hcount : confirmedCount db (plainPayload event_id).event_id = min processed.length cap := by
    show confirmedCount db event_id = min processed.length cap
    rw [confirmedCount_eq_statusCount, counts_by_views, hv, seqViews_countP_confirmed]
    omega
  have hlt : ((confirmedCount db (plainPayload event_id).event_id : Int) < ev.capacity.getD 0) ↔
      (processed.length < cap) := by
    rw [hcount, hcap]
    simp only [Option.getD_some, Nat.cast_lt]
    omega
  have htruthy : capacityTruthy ev.capacity = true := by
    have hne : ((cap : Int)) ≠ 0 := by
      have : cap ≠ 0 := by omega
      exact_mod_cast this
    rw [hcap]
    simp [capacityTruthy, hne]
  constructor
  · unfold applyRegister
    rw [hreg]
    simp only [List.map_append]
    rw [hv, seqViews_append]
    congr 1
    simp only [List.map_cons, List.map_nil, List.cons.injEq, and_true]
    show (event_id, u, _) = (event_id, u, _)
    rw [htruthy]
    simp only [if_true]
    by_cases hpl : processed.length < cap
    · rw [if_pos (hlt.mpr hpl), if_pos (by omega : 0 + processed.length < cap)]
    · rw [if_neg (fun hc => hpl (hlt.mp hc)),
        if_neg (by omega : ¬ (0 + processed.length < cap))]
  · unfold applyRegister
    rw [hreg]

lemma registerMany_views (event_id : Nat) (ev : Event) (cap : Nat) (hcpos : 0 < cap)
    (hcap : ev.capacity = some (cap : Int)) :
    ∀ (users : List Nat), users.Nodup →
      ∀ (processed : List Nat) (db : DB),
        findEvent db event_id = some ev →
        db.registrations.map regView = seqViews event_id cap 0 processed →
        (∀ u ∈ users, u ∉ processed) →
        (registerMany db event_id users).registrations.map regView =
          seqViews event_id cap 0 (processed ++ users) ∧
        (registerMany db event_id users).events = db.events := by
  intro users
  induction users with
  | nil =>
    intro _ processed db hev hv _
    constructor
    · simpa [registerMany] using hv
    · simp [registerMany]
  | cons u rest ih =>
    intro hnodup processed db hev hv hfresh
    have hstep := applyRegister_step db event_id ev cap hcpos hev hcap processed hv u
      (hfresh u (by simp))
    have hev2 : findEvent (applyRegister db (plainPayload event_id) u) event_id = some ev := by
      unfold findEvent
      rw [hstep.2]
      exact hev
    have hfresh2 : ∀ v ∈ rest, v ∉ processed ++ [u] := by
      intro v hvr
      simp only [List.mem_append, List.mem_singleton]
      rintro (hvp | hvu)
      · exact hfresh v (by simp [hvr]) hvp
      · exact (List.nodup_cons.mp hnodup).1 (hvu ▸ hvr)
    have hmany : registerMany db event_id (u :: rest) =
        registerMany (applyRegister db (plainPayload event_id) u) event_id rest := rfl
    rw [hmany]
    have hrest := ih (List.nodup_cons.mp hnodup).2 (processed ++ [u])
      (applyRegister db (plainPayload event_id) u) hev2 hstep.1 hfresh2
    refine ⟨?_, ?_⟩
    · rw [hrest.1]
      congr 1
      simp
    · rw [hrest.2, hstep.2]

/-- C1 counterexample: event 1 of capZeroDB has capacity set to 0 and its
CONFIRMED count (0) is not strictly below that capacity, so the claim
demands WAITLIST; the code returns CONFIRMED. -/
theorem register_admission_counterexample :
    (∃ ev, findEvent capZeroDB 1 = some ev ∧ ev.capacity = some 0) ∧
    ¬ ((confirmedCount capZeroDB 1 : Int) < 0) ∧
    ∃ db2 r, register_for_event capZeroDB (plainPayload 1) 7 = .ok (db2, r) ∧
      r.status ≠ RegistrationStatus.waitlist ∧
      r.status = RegistrationStatus.confirmed := by
  refine ⟨⟨{ id := 1, title := "Camp", capacity := some 0 }, rfl, rfl⟩, by decide, ?_⟩
  exact ⟨_, _, rfl, by decide, rfl⟩

/-- C1 (amended): for Register on an existing event with no duplicate
registration, when the capacity is set and nonzero the status is CONFIRMED
exactly when the CONFIRMED count is strictly below the capacity and
WAITLIST otherwise, and when the capacity is null the status is CONFIRMED;
consequently N sequential registrations by distinct users against a fresh
event of positive capacity C yield exactly min(N, C) CONFIRMED and
max(0, N-C) WAITLIST rows, the first C arrivals CONFIRMED, and the
CONFIRMED count never exceeds C along the way. (The original claim, with
capacity merely set, fails at capacity 0: see the counterexample.) -/
theorem register_admission_spec :
    (∀ (db : DB) (payload : RegistrationCreate) (uid : Nat) (ev : Event) (c : Int),
      findEvent db payload.event_id = some ev →
      findExistingRegistration db payload.event_id uid = none →
      ev.capacity = some c → c ≠ 0 →
      ∃ db2 r, register_for_event db payload uid = .ok (db2, r) ∧
        (r.status = RegistrationStatus.confirmed ↔
          (confirmedCount db payload.event_id : Int) < c) ∧
        (r.status = RegistrationStatus.waitlist ↔
          ¬ ((confirmedCount db payload.event_id : Int) < c))) ∧
    (∀ (db : DB) (payload : RegistrationCreate) (uid : Nat) (ev : Event),
      findEvent db payload.event_id = some ev →
      findExistingRegistration db payload.event_id uid = none →
      ev.capacity = none →
      ∃ db2 r, register_for_event db payload uid = .ok (db2, r) ∧
        r.status = RegistrationStatus.confirmed) ∧
    (∀ (db0 : DB) (event_id cap : Nat) (ev : Event) (users : List Nat),
      findEvent db0 event_id = some ev → ev.capacity = some (cap : Int) → 0 < cap →
      db0.registrations = [] → users.Nodup →
      confirmedCount (registerMany db0 event_id users) event_id = min users.length cap ∧
      statusCount (registerMany db0 event_id users) event_id RegistrationStatus.waitlist =
        users.length - cap ∧
      (∀ i r, (registerMany db0 event_id users).registrations[i]? = some r →
        users[i]? = some r.user_id ∧
        (r.status = RegistrationStatus.confirmed ↔ i < cap)) ∧
      (∀ k, confirmedCount (registerMany db0 event_id (users.take k)) event_id ≤ cap)) := by
  refine ⟨?_, ?_, ?_⟩
  · intro db payload uid ev c hev hdup hcap hc0
    have hreg := register_ok db payload uid ev hev hdup
    have htruthy : capacityTruthy ev.capacity = true := by
      rw [hcap]
      simp [capacityTruthy, hc0]
    refine ⟨_, _, hreg, ?_, ?_⟩ <;>
      rw [htruthy] <;>
      simp only [if_true, hcap, Option.getD_some] <;>
      by_cases h : (confirmedCount db payload.event_id : Int) < c <;>
      simp [h]
  · intro db payload uid ev hev hdup hcap
    have hreg := register_ok db payload uid ev hev hdup
    have htruthy : capacityTruthy ev.capacity = false := by
      rw [hcap]
      rfl
    refine ⟨_, _, hreg, ?_⟩
    rw [htruthy]
    simp
  · intro db0 event_id cap ev users hev hcap hcpos hempty hnodup
    have hv0 : db0.registrations.map regView = seqViews event_id cap 0 [] := by
      rw [hempty]
      rfl
    have hall := registerMany_views event_id ev cap hcpos hcap users hnodup [] db0 hev hv0
      (by simp)
    have hviews : (registerMany db0 event_id users).registrations.map regView =
        seqViews event_id cap 0 users := by
      rw [hall.1]
      simp
    refine ⟨?_, ?_, ?_, ?_⟩
    · rw [confirmedCount_eq_statusCount, counts_by_views, hviews, seqViews_countP_confirmed]
      omega
    · rw [counts_by_views, hviews, seqViews_countP_waitlist]
      omega
    · intro i r hir
      have h1 : ((registerMany db0 event_id users).registrations.map regView)[i]? =
          some (regView r) := by
        rw [List.getElem?_map, hir]
        rfl
      rw [hviews, seqViews_getElem? event_id cap users 0 i] at h1
      rcases Option.map_eq_some'.mp h1 with ⟨u, hu, hval⟩
      have he1 : event_id = r.event_id ∧ u = r.user_id ∧
          (if 0 + i < cap then RegistrationStatus.confirmed
            else RegistrationStatus.waitlist) = r.status := by
        have := hval
        unfold regView at this
        exact ⟨congrArg Prod.fst this,
          congrArg (fun t => t.2.1) this,
          congrArg (fun t => t.2.2) this⟩
      refine ⟨by rw [hu, he1.2.1], ?_⟩
      rcases he1.2.2 with hst
      by_cases hic : i < cap
      · rw [← hst, if_pos (by omega : 0 + i < cap)]
        simp [hic]
      · rw [← hst, if_neg (by omega : ¬ (0 + i < cap))]
        constructor
        · intro hbad
          exact absurd hbad (by decide)
        · intro hbad
          exact absurd hbad hic
    · intro k
      have hnd : (users.take k).Nodup := hnodup.sublist (List.take_sublist k users)
      have htk := registerMany_views event_id ev cap hcpos hcap (users.take k) hnd [] db0
        hev hv0 (by simp)
      have hviewk : (registerMany db0 event_id (users.take k)).registrations.map regView =
          seqViews event_id cap 0 (users.take k) := by
        rw [htk.1]
        simp
      rw [confirmedCount_eq_statusCount, counts_by_views, hviewk, seqViews_countP_confirmed]
      omega

/-- The fresh capacity-2 event database used by the C1 witness. -/
def seqDB : DB :=
  { events := [{ id := 1, title := "Camp", capacity := some 2 }]
    registrations := []
    attendance := []
    nextRegId := 0
    nextAttId := 0 }

/-- C1 witness: three distinct users register against the fresh capacity-2
event of seqDB; exactly min(3,2) are CONFIRMED, 3-2 are WAITLIST, the
first two arrivals are the CONFIRMED ones, and no prefix exceeds the
capacity. -/
theorem register_admission_spec_witness :
    confirmedCount (registerMany seqDB 1 [4, 5, 6]) 1 = min 3 2 ∧
    statusCount (registerMany seqDB 1 [4, 5, 6]) 1 RegistrationStatus.waitlist = 3 - 2 ∧
    (∀ i r, (registerMany seqDB 1 [4, 5, 6]).registrations[i]? = some r →
      [4, 5, 6][i]? = some r.user_id ∧
      (r.status = RegistrationStatus.confirmed ↔ i < 2)) ∧
    (∀ k, confirmedCount (registerMany seqDB 1 ([4, 5, 6].take k)) 1 ≤ 2) :=
  register_admission_spec.2.2 seqDB 1 2 { id := 1, title := "Camp", capacity := some 2 }
    [4, 5, 6] (by rfl) (by rfl) (by omega) (by rfl) (by decide)

/-! ### Association-list lemmas for the connection registry -/

lemma alGet_nil {α : Type} (k : Nat) : alGet ([] : List (Nat × α)) k = none := rfl

lemma alGet_cons {α : Type} (p : Nat × α) (rest : List (Nat × α)) (k : Nat) :
    alGet (p :: rest) k = if p.1 = k then some p.2 else alGet rest k := by
  unfold alGet
  by_cases h : p.1 = k
  · rw [List.find?_cons_of_pos _ (by simpa using h), if_pos h]
    rfl
  · rw [List.find?_cons_of_neg _ (by simpa using h), if_neg h]

lemma alGet_alSet {α : Type} (m : List (Nat × α)) (k k2 : Nat) (v : α) :
    alGet (alSet m k v) k2 = if k2 = k then some v else alGet m k2 := by
  induction m with
  | nil =>
    show alGet [(k, v)] k2 = _
    rw [alGet_cons]
    by_cases h : k2 = k
    · simp [h]
    · have h1 : ¬ (k = k2) := fun hx => h hx.symm
      simp [h, h1, alGet_nil]
  | cons p rest ih =>
    by_cases hp : p.1 = k
    · simp only [alSet, hp, if_true]
      rw [alGet_cons, alGet_cons]
      by_cases h : k2 = k
      · simp [h, hp]
      · have h1 : ¬ (k = k2) := fun hx => h hx.symm
        have h2 : ¬ (p.1 = k2) := by rw [hp]; exact h1
        simp [h, h1, h2]
    · simp only [alSet, hp, if_false]
      rw [alGet_cons, alGet_cons, ih]
      by_cases hpk2 : p.1 = k2
      · have h2 : ¬ (k2 = k) := fun hx => hp (by rw [hpk2, hx])
        simp [hpk2, h2]
      · simp [hpk2]

lemma alErase_cons {α : Type} (p : Nat × α) (rest : List (Nat × α)) (k : Nat) :
    alErase (p :: rest) k = if p.1 = k then alErase rest k else p :: alErase rest k := by
  unfold alErase
  rw [List.filter_cons]
  by_cases h : p.1 = k
  · simp [h]
  · simp [h]

lemma alGet_alErase {α : Type} (m : List (Nat × α)) (k k2 : Nat) :
    alGet (alErase m k) k2 = if k2 = k then none else alGet m k2 := by
  induction m with
  | nil => by_cases h : k2 = k <;> simp [alErase, alGet_nil, h]
  | cons p rest ih =>
    rw [alErase_cons]
    by_cases hp : p.1 = k
    · rw [if_pos hp, ih, alGet_cons]
      by_cases h : k2 = k
      · simp [h]
      · have h2 : ¬ (p.1 = k2) := by
          rw [hp]
          exact fun hx => h hx.symm
        simp [h, h2]
    · rw [if_neg hp, alGet_cons, alGet_cons, ih]
      by_cases hpk2 : p.1 = k2
      · have h2 : ¬ (k2 = k) := fun hx => hp (by rw [hpk2, hx])
        simp [hpk2, h2]
      · simp [hpk2]

lemma broadcast_targets (s : WSState) (g : Nat) (exc : Option Nat) (failed : Nat → Bool) :
    (broadcast_to_group s g exc failed).targets =
      ((alGet s.active_connections g).getD []).filter (fun c => some c ≠ exc) ∧
    (broadcast_to_group s g exc failed).delivered =
      (((alGet s.active_connections g).getD []).filter
        (fun c => some c ≠ exc)).filter (fun c => !failed c) := by
  unfold broadcast_to_group
  cases h : alGet s.active_connections g with
  | none => simp
  | some conns => simp

lemma filter_some_ne_none (l : List Nat) :
    l.filter (fun c => some c ≠ (none : Option Nat)) = l := by
  apply List.filter_eq_self.mpr
  intro a _
  simp

lemma filter_some_ne_some (l : List Nat) (ws : Nat) :
    l.filter (fun c => some c ≠ some ws) = l.filter (fun c => c ≠ ws) := by
  apply List.filter_congr
  intro a _
  simp

/-! ### C8 -/

/-- C8: a message payload on an established connection persists exactly
one ChatMessage row carrying the group, sender, content and type, and
broadcasts that persisted message to every connection registered for the
group with no exclusion, so the sender is targeted too; a typing payload,
by contrast, excludes the sender and persists nothing. -/
theorem websocket_message_spec (db : ChatDB) (s : WSState) (ws group_id : Nat)
    (user : User) (content message_type : String) (is_typing : Bool) (failed : Nat → Bool) :
    ((websocket_receive db s ws group_id user
        (.message content message_type) failed).db.messages =
      db.messages ++
        [{ id := db.nextMsgId, group_id := group_id, sender_id := user.id
           content := content, message_type := message_type }]) ∧
    ((websocket_receive db s ws group_id user
        (.message content message_type) failed).sent =
      [{ event := .chat_message
           { id := db.nextMsgId, group_id := group_id, sender_id := user.id
             content := content, message_type := message_type }
         targets := (alGet s.active_connections group_id).getD []
         delivered := ((alGet s.active_connections group_id).getD []).filter
           (fun c => !failed c) }]) ∧
    (ws ∈ (alGet s.active_connections group_id).getD [] →
      ∀ b ∈ (websocket_receive db s ws group_id user
        (.message content message_type) failed).sent, ws ∈ b.targets) ∧
    ((websocket_receive db s ws group_id user (.typing is_typing) failed).db = db) ∧
    ((websocket_receive db s ws group_id user (.typing is_typing) failed).sent.map
        (fun b => b.targets) =
      [((alGet s.active_connections group_id).getD []).filter (fun c => c ≠ ws)]) ∧
    (∀ b ∈ (websocket_receive db s ws group_id user (.typing is_typing) failed).sent,
      ws ∉ b.targets) := by
  have hbm := broadcast_targets s group_id none failed
  have hbt := broadcast_targets s group_id (some ws) failed
  refine ⟨?_, ?_, ?_, ?_, ?_, ?_⟩
  · simp only [websocket_receive]
  · simp only [websocket_receive]
    rw [hbm.1, hbm.2, filter_some_ne_none]
  · intro hws b hb
    simp only [websocket_receive, List.mem_singleton] at hb
    rw [hb]
    simp only [hbm.1, filter_some_ne_none]
    exact hws
  · simp only [websocket_receive]
  · simp only [websocket_receive, List.map_cons, List.map_nil]
    rw [hbt.1, filter_some_ne_some]
  · intro b hb
    simp only [websocket_receive, List.mem_singleton] at hb
    rw [hb]
    simp only [hbt.1, filter_some_ne_some]
    intro hmem
    exact absurd (List.mem_filter.mp hmem).2 (by simp)

/-- Concrete registry for the websocket witnesses: group 1 holds
connections 100 (user 4) and 101 (user 5). -/
def wsS0 : WSState :=
  { active_connections := [(1, [100, 101])]
    websocket_users := [(100, 4), (101, 5)] }

/-- Concrete chat database for the websocket witnesses. -/
def chatDB0 : ChatDB :=
  { users := [{ id := 4, is_active := true, roles := [] },
              { id := 9, is_active := true, roles := [] }]
    memberships := [(1, 4), (1, 9)]
    messages := []
    nextMsgId := 0 }

/-- The sender behind connection 100. -/
def user4 : User := { id := 4, is_active := true, roles := [] }

/-- The broadcast record produced in the C8 witness scenario. -/
def msgBroadcastVal : SentBroadcast :=
  { event := WSEvent.chat_message
      { id := 0, group_id := 1, sender_id := 4, content := "hi", message_type := "text" }
    targets := [100, 101]
    delivered := [100, 101] }

/-- C8 witness: connection 100 sends a message to group 1; exactly one
ChatMessage is persisted and the broadcast targets include the sender. -/
theorem websocket_message_spec_witness :
    (websocket_receive chatDB0 wsS0 100 1 user4 (InboundPayload.message "hi" "text")
      (fun _ => false)).db.messages =
      chatDB0.messages ++
        [{ id := 0, group_id := 1, sender_id := 4, content := "hi", message_type := "text" }] ∧
    100 ∈ msgBroadcastVal.targets := by
  have h := websocket_message_spec chatDB0 wsS0 100 1 user4 "hi" "text" true (fun _ => false)
  refine ⟨h.1, ?_⟩
  refine h.2.2.1 (by decide) msgBroadcastVal ?_
  rw [h.2.1]
  simp only [List.mem_singleton]
  decide

lemma broadcast_state (s : WSState) (g : Nat) (exc : Option Nat) (failed : Nat → Bool) :
    (broadcast_to_group s g exc failed).state =
      (((((alGet s.active_connections g).getD []).filter
          (fun c => some c ≠ exc)).filter (fun c => failed c)).foldl
        (fun st c => pruneConnection st g c) s) := by
  unfold broadcast_to_group
  cases h : alGet s.active_connections g with
  | none => simp
  | some conns => simp

lemma pruneConnection_keeps (s : WSState) (g c ws : Nat) (hne : c ≠ ws) :
    alGet (pruneConnection s g c).websocket_users ws = alGet s.websocket_users ws ∧
    (∀ conns, alGet s.active_connections g = some conns →
      ∃ conns2, alGet (pruneConnection s g c).active_connections g = some conns2 ∧
        (ws ∈ conns → ws ∈ conns2)) := by
  constructor
  · show alGet (alErase s.websocket_users c) ws = _
    rw [alGet_alErase, if_neg (fun hx => hne hx.symm)]
  · intro conns hc
    refine ⟨conns.filter (fun x => x ≠ c), ?_, ?_⟩
    · show alGet (match alGet s.active_connections g with
        | none => s.active_connections
        | some conns => alSet s.active_connections g (conns.filter (fun x => x ≠ c))) g = _
      rw [hc, alGet_alSet, if_pos rfl]
    · intro hws
      refine List.mem_filter.mpr ⟨hws, ?_⟩
      exact decide_eq_true (fun hx => hne hx.symm)

lemma pruneFold_keeps (g ws : Nat) :
    ∀ (l : List Nat) (s : WSState), (∀ c ∈ l, c ≠ ws) →
      (alGet ((l.foldl (fun st c => pruneConnection st g c) s)).websocket_users ws =
        alGet s.websocket_users ws) ∧
      (∀ conns, alGet s.active_connections g = some conns → ws ∈ conns →
        ∃ conns2,
          alGet ((l.foldl (fun st c => pruneConnection st g c) s)).active_connections g =
            some conns2 ∧ ws ∈ conns2) := by
  intro l
  induction l with
  | nil =>
    intro s _
    exact ⟨rfl, fun conns hc hw => ⟨conns, hc, hw⟩⟩
  | cons c rest ih =>
    intro s hall
    have hc := pruneConnection_keeps s g c ws (hall c (by simp))
    have hrest := ih (pruneConnection s g c) (fun x hx => hall x (by simp [hx]))
    constructor
    · rw [List.foldl_cons, hrest.1, hc.1]
    · intro conns hconns hws
      rcases hc.2 conns hconns with ⟨conns2, hconns2, himp⟩
      rcases hrest.2 conns2 hconns2 (himp hws) with ⟨conns3, h3, hw3⟩
      refine ⟨conns3, ?_, hw3⟩
      rw [List.foldl_cons]
      exact h3

/-! ### C7 -/

/-- C7: connecting with a credential that resolves to no active user, or
as a non-member of the group, closes the connection with the
policy-violation code, changes no registry state and broadcasts nothing;
a successful connect registers the connection in both maps and broadcasts
exactly one user_joined event whose targets are all other current
connections of the group, never the new connection itself. -/
theorem websocket_connect_spec (db : ChatDB) (s : WSState) (ws group_id : Nat)
    (token : Token) (failed : Nat → Bool) :
    (get_websocket_user db token = none →
      websocket_connect db s ws group_id token failed =
        { closed := some CloseCode.policyViolation, state := s, sent := [] }) ∧
    (∀ user, get_websocket_user db token = some user →
      db.memberships.any (fun m => m.1 = group_id && m.2 = user.id) = false →
      websocket_connect db s ws group_id token failed =
        { closed := some CloseCode.policyViolation, state := s, sent := [] }) ∧
    (∀ user, get_websocket_user db token = some user →
      db.memberships.any (fun m => m.1 = group_id && m.2 = user.id) = true →
      (websocket_connect db s ws group_id token failed).closed = none ∧
      alGet (websocket_connect db s ws group_id token failed).state.websocket_users ws =
        some user.id ∧
      (∃ conns2,
        alGet (websocket_connect db s ws group_id token failed).state.active_connections
          group_id = some conns2 ∧ ws ∈ conns2) ∧
      (websocket_connect db s ws group_id token failed).sent =
        [{ event := WSEvent.user_joined user.id group_id
           targets := ((alGet s.active_connections group_id).getD []).filter (fun c => c ≠ ws)
           delivered := (((alGet s.active_connections group_id).getD []).filter
             (fun c => c ≠ ws)).filter (fun c => !failed c) }] ∧
      ws ∉ ((alGet s.active_connections group_id).getD []).filter (fun c => c ≠ ws)) := by
  refine ⟨?_, ?_, ?_⟩
  · intro hnone
    simp only [websocket_connect, hnone]
  · intro user huser hmem
    simp only [websocket_connect, huser, hmem, Bool.false_eq_true, if_false]
  · intro user huser hmem
    have hold : alGet (registerConnection s ws group_id user.id).active_connections group_id =
        some (if ws ∈ (alGet s.active_connections group_id).getD [] then
            (alGet s.active_connections group_id).getD []
          else (alGet s.active_connections group_id).getD [] ++ [ws]) := by
      show alGet (alSet s.active_connections group_id _) group_id = _
      rw [alGet_alSet, if_pos rfl]
    have husers : alGet (registerConnection s ws group_id user.id).websocket_users ws =
        some user.id := by
      show alGet (alSet s.websocket_users ws user.id) ws = _
      rw [alGet_alSet, if_pos rfl]
    have htfilter : ((if ws ∈ (alGet s.active_connections group_id).getD [] then
          (alGet s.active_connections group_id).getD []
        else (alGet s.active_connections group_id).getD [] ++ [ws]).filter
          (fun c => some c ≠ some ws)) =
        ((alGet s.active_connections group_id).getD []).filter (fun c => c ≠ ws) := by
      rw [filter_some_ne_some]
      by_cases hin : ws ∈ (alGet s.active_connections group_id).getD []
      · rw [if_pos hin]
      · rw [if_neg hin, List.filter_append]
        simp
    have hbr := broadcast_targets (registerConnection s ws group_id user.id) group_id
      (some ws) failed
    have hbs := broadcast_state (registerConnection s ws group_id user.id) group_id
      (some ws) failed
    rw [hold] at hbr hbs
    simp only [Option.getD_some] at hbr hbs
    rw [htfilter] at hbr hbs
    have hplne : ∀ c ∈ (((alGet s.active_connections group_id).getD []).filter
        (fun c => c ≠ ws)).filter (fun c => failed c), c ≠ ws := by
      intro c hcmem
      have h1 := (List.mem_filter.mp (List.mem_filter.mp hcmem).1).2
      simpa using h1
    have hkeeps := pruneFold_keeps group_id ws
      ((((alGet s.active_connections group_id).getD []).filter
        (fun c => c ≠ ws)).filter (fun c => failed c))
      (registerConnection s ws group_id user.id) hplne
    simp only [websocket_connect, huser, hmem, if_true]
    refine ⟨trivial, ?_, ?_, ?_, ?_⟩
    · rw [hbs, hkeeps.1, husers]
    · rw [hbs]
      refine hkeeps.2 _ hold ?_
      by_cases hin : ws ∈ (alGet s.active_connections group_id).getD []
      · rw [if_pos hin]
        exact hin
      · rw [if_neg hin]
        exact List.mem_append.mpr (Or.inr (by simp))
    · rw [hbr.1, hbr.2]
    · intro hbad
      have h1 := (List.mem_filter.mp hbad).2
      simp at h1

/-- C7 witness: an invalid credential closes connection 102 with the
policy-violation code and broadcasts nothing; a valid credential of member
user 9 registers connection 102 in both maps and broadcasts one
user_joined event to connections 100 and 101 only. -/
theorem websocket_connect_spec_witness :
    (websocket_connect chatDB0 wsS0 102 1 Token.invalid (fun _ => false) =
      { closed := some CloseCode.policyViolation, state := wsS0, sent := [] }) ∧
    (websocket_connect chatDB0 wsS0 102 1 (Token.sub 9) (fun _ => false)).closed = none ∧
    alGet (websocket_connect chatDB0 wsS0 102 1 (Token.sub 9)
      (fun _ => false)).state.websocket_users 102 = some 9 ∧
    (∃ conns2,
      alGet (websocket_connect chatDB0 wsS0 102 1 (Token.sub 9)
        (fun _ => false)).state.active_connections 1 = some conns2 ∧ 102 ∈ conns2) ∧
    (websocket_connect chatDB0 wsS0 102 1 (Token.sub 9) (fun _ => false)).sent =
      [{ event := WSEvent.user_joined 9 1
         targets := ((alGet wsS0.active_connections 1).getD []).filter (fun c => c ≠ 102)
         delivered := (((alGet wsS0.active_connections 1).getD []).filter
           (fun c => c ≠ 102)).filter (fun c => !(fun _ => false) c) }] ∧
    102 ∉ ((alGet wsS0.active_connections 1).getD []).filter (fun c => c ≠ 102) := by
  have h1 := (websocket_connect_spec chatDB0 wsS0 102 1 Token.invalid (fun _ => false)).1
    (by rfl)
  have h2 := (websocket_connect_spec chatDB0 wsS0 102 1 (Token.sub 9) (fun _ => false)).2.2
    { id := 9, is_active := true, roles := [] } (by rfl) (by rfl)
  exact ⟨h1, h2.1, h2.2.1, h2.2.2.1, h2.2.2.2.1, h2.2.2.2.2⟩

/-! ### C9: mutual consistency of the two registry maps -/

lemma alGet_registerConnection_ac (s : WSState) (ws g uid g2 : Nat) :
    alGet (registerConnection s ws g uid).active_connections g2 =
      if g2 = g then
        some (if ws ∈ (alGet s.active_connections g).getD []
          then (alGet s.active_connections g).getD []
          else (alGet s.active_connections g).getD [] ++ [ws])
      else alGet s.active_connections g2 := by
  show alGet (alSet s.active_connections g _) g2 = _
  rw [alGet_alSet]

lemma alGet_registerConnection_wu (s : WSState) (ws g uid w2 : Nat) :
    alGet (registerConnection s ws g uid).websocket_users w2 =
      if w2 = ws then some uid else alGet s.websocket_users w2 := by
  show alGet (alSet s.websocket_users ws uid) w2 = _
  rw [alGet_alSet]

lemma onlyIn_of_mem (s : WSState) (g c : Nat) (conns : List Nat)
    (hone : AtMostOneGroup s)
    (h : alGet s.active_connections g = some conns) (hc : c ∈ conns) :
    OnlyInGroup s c g :=
  fun g2 conns2 h2 hm2 => hone g2 g conns2 conns c h2 h hm2 hc

lemma inv_registerConnection (s : WSState) (ws g uid : Nat)
    (hmc : MapsConsistent s) (hone : AtMostOneGroup s)
    (hfresh : alGet s.websocket_users ws = none) :
    MapsConsistent (registerConnection s ws g uid) ∧
    AtMostOneGroup (registerConnection s ws g uid) := by
  have hnowhere : ∀ g2 conns, alGet s.active_connections g2 = some conns → ws ∉ conns := by
    intro g2 conns hg2 hmem
    have h1 := (hmc ws).mpr ⟨g2, conns, hg2, hmem⟩
    rw [hfresh] at h1
    simp at h1
  have hmemconns2 : ws ∈ (if ws ∈ (alGet s.active_connections g).getD []
      then (alGet s.active_connections g).getD []
      else (alGet s.active_connections g).getD [] ++ [ws]) := by
    by_cases hin : ws ∈ (alGet s.active_connections g).getD []
    · rw [if_pos hin]
      exact hin
    · rw [if_neg hin]
      exact List.mem_append.mpr (Or.inr (by simp))
  have hsub : ∀ w2, w2 ∈ (alGet s.active_connections g).getD [] →
      w2 ∈ (if ws ∈ (alGet s.active_connections g).getD []
        then (alGet s.active_connections g).getD []
        else (alGet s.active_connections g).getD [] ++ [ws]) := by
    intro w2 hw2
    by_cases hin : ws ∈ (alGet s.active_connections g).getD []
    · rw [if_pos hin]
      exact hw2
    · rw [if_neg hin]
      exact List.mem_append.mpr (Or.inl hw2)
  have hback : ∀ w2, w2 ∈ (if ws ∈ (alGet s.active_connections g).getD []
      then (alGet s.active_connections g).getD []
      else (alGet s.active_connections g).getD [] ++ [ws]) →
      w2 ∈ (alGet s.active_connections g).getD [] ∨ w2 = ws := by
    intro w2 hw2
    by_cases hin : ws ∈ (alGet s.active_connections g).getD []
    · rw [if_pos hin] at hw2
      exact Or.inl hw2
    · rw [if_neg hin] at hw2
      rcases List.mem_append.mp hw2 with h | h
      · exact Or.inl h
      · exact Or.inr (by simpa using h)
  have hmemold : ∀ w2, w2 ∈ (alGet s.active_connections g).getD [] →
      ∃ conns0, alGet s.active_connections g = some conns0 ∧ w2 ∈ conns0 := by
    intro w2 hw2
    cases hg : alGet s.active_connections g with
    | none =>
      rw [hg] at hw2
      simp at hw2
    | some conns0 =>
      rw [hg] at hw2
      exact ⟨conns0, rfl, by simpa using hw2⟩
  constructor
  · intro w2
    rw [alGet_registerConnection_wu]
    constructor
    · intro hsome
      by_cases hw : w2 = ws
      · subst hw
        exact ⟨g, _, by rw [alGet_registerConnection_ac, if_pos rfl], hmemconns2⟩
      · rw [if_neg hw] at hsome
        rcases (hmc w2).mp hsome with ⟨g2, conns0, hg2, hm0⟩
        by_cases hg2g : g2 = g
        · subst hg2g
          refine ⟨g2, _, by rw [alGet_registerConnection_ac, if_pos rfl], ?_⟩
          apply hsub
          rw [hg2]
          simpa using hm0
        · exact ⟨g2, conns0, by rw [alGet_registerConnection_ac, if_neg hg2g]; exact hg2, hm0⟩
    · intro hfwd
      rcases hfwd with ⟨g2, conns0, hg2, hm0⟩
      rw [alGet_registerConnection_ac] at hg2
      by_cases hg2g : g2 = g
      · rw [if_pos hg2g] at hg2
        injection hg2 with hg2e
        rw [← hg2e] at hm0
        rcases hback w2 hm0 with hold | hws
        · rcases hmemold w2 hold with ⟨conns1, hg1, hm1⟩
          have h2 := (hmc w2).mpr ⟨g, conns1, hg1, hm1⟩
          by_cases hw : w2 = ws
          · rw [if_pos hw]
            simp
          · rw [if_neg hw]
            exact h2
        · rw [if_pos hws]
          simp
      · rw [if_neg hg2g] at hg2
        have h2 := (hmc w2).mpr ⟨g2, conns0, hg2, hm0⟩
        by_cases hw : w2 = ws
        · exact absurd (hw ▸ hm0) (hnowhere g2 conns0 hg2)
        · rw [if_neg hw]
          exact h2
  · intro g2 g3 conns2 conns3 w2 hg2 hg3 hm2 hm3
    rw [alGet_registerConnection_ac] at hg2 hg3
    by_cases h2g : g2 = g <;> by_cases h3g : g3 = g
    · rw [h2g, h3g]
    · rw [if_pos h2g] at hg2
      rw [if_neg h3g] at hg3
      injection hg2 with hg2e
      rw [← hg2e] at hm2
      rcases hback w2 hm2 with hold | hws
      · rcases hmemold w2 hold with ⟨conns1, hg1, hm1⟩
        rw [h2g]
        exact (hone g g3 conns1 conns3 w2 hg1 hg3 hm1 hm3).symm ▸ rfl
      · exact absurd (hws ▸ hm3) (hnowhere g3 conns3 hg3)
    · rw [if_neg h2g] at hg2
      rw [if_pos h3g] at hg3
      injection hg3 with hg3e
      rw [← hg3e] at hm3
      rcases hback w2 hm3 with hold | hws
      · rcases hmemold w2 hold with ⟨conns1, hg1, hm1⟩
        rw [h3g]
        exact hone g2 g conns2 conns1 w2 hg2 hg1 hm2 hm1
      · exact absurd (hws ▸ hm2) (hnowhere g2 conns2 hg2)
    · rw [if_neg h2g] at hg2
      rw [if_neg h3g] at hg3
      exact hone g2 g3 conns2 conns3 w2 hg2 hg3 hm2 hm3

lemma alSet_slots (m : List (Nat × List Nat)) (g : Nat) (ce : List Nat)
    (g3 : Nat) (conns3 : List Nat)
    (h : alGet (alSet m g ce) g3 = some conns3) :
    (g3 = g ∧ conns3 = ce) ∨ (g3 ≠ g ∧ alGet m g3 = some conns3) := by
  rw [alGet_alSet] at h
  by_cases hg : g3 = g
  · rw [if_pos hg] at h
    injection h with h
    exact Or.inl ⟨hg, h.symm⟩
  · rw [if_neg hg] at h
    exact Or.inr ⟨hg, h⟩

lemma alErase_slots {α : Type} (m : List (Nat × α)) (g g3 : Nat) (v : α)
    (h : alGet (alErase m g) g3 = some v) : g3 ≠ g ∧ alGet m g3 = some v := by
  rw [alGet_alErase] at h
  by_cases hg : g3 = g
  · rw [if_pos hg] at h
    exact absurd h (by simp)
  · rw [if_neg hg] at h
    exact ⟨hg, h⟩

lemma inv_pruneConnection (s : WSState) (g c : Nat)
    (hmc : MapsConsistent s) (hone : AtMostOneGroup s)
    (honly : OnlyInGroup s c g) :
    MapsConsistent (pruneConnection s g c) ∧ AtMostOneGroup (pruneConnection s g c) := by
  have hwu : (pruneConnection s g c).websocket_users = alErase s.websocket_users c := rfl
  cases h : alGet s.active_connections g with
  | none =>
    have hac : (pruneConnection s g c).active_connections = s.active_connections := by
      unfold pruneConnection
      rw [h]
    constructor
    · intro w2
      rw [hwu, hac, alGet_alErase]
      by_cases hw : w2 = c
      · rw [if_pos hw]
        simp only [Option.isSome_none, Bool.false_eq_true, false_iff]
        rintro ⟨g2, conns0, hg2, hm0⟩
        have := honly g2 conns0 hg2 (hw ▸ hm0)
        rw [this] at hg2
        rw [h] at hg2
        exact absurd hg2 (by simp)
      · rw [if_neg hw]
        exact hmc w2
    · intro g2 g3 conns2 conns3 w2 hg2 hg3 hm2 hm3
      rw [hac] at hg2 hg3
      exact hone g2 g3 conns2 conns3 w2 hg2 hg3 hm2 hm3
  | some conns =>
    have hac : (pruneConnection s g c).active_connections =
        alSet s.active_connections g (conns.filter (fun x => x ≠ c)) := by
      unfold pruneConnection
      rw [h]
    have hcece : ∀ w2, w2 ∈ conns.filter (fun x => x ≠ c) → w2 ∈ conns ∧ w2 ≠ c := by
      intro w2 hw2
      rcases List.mem_filter.mp hw2 with ⟨hm, hd⟩
      exact ⟨hm, by simpa using hd⟩
    constructor
    · intro w2
      rw [hwu, hac, alGet_alErase]
      by_cases hw : w2 = c
      · rw [if_pos hw]
        simp only [Option.isSome_none, Bool.false_eq_true, false_iff]
        rintro ⟨g2, conns0, hg2, hm0⟩
        rcases alSet_slots _ _ _ _ _ hg2 with ⟨hgg, hce⟩ | ⟨hgg, hold⟩
        · rw [hce] at hm0
          exact (hcece w2 hm0).2 hw
        · have := honly g2 conns0 hold (hw ▸ hm0)
          exact hgg this
      · rw [if_neg hw]
        constructor
        · intro hsome
          rcases (hmc w2).mp hsome with ⟨g2, conns0, hg2, hm0⟩
          by_cases hgg : g2 = g
          · subst hgg
            rw [hg2] at h
            injection h with h
            refine ⟨g2, conns.filter (fun x => x ≠ c), by rw [alGet_alSet, if_pos rfl], ?_⟩
            refine List.mem_filter.mpr ⟨by rw [h] at hm0; exact hm0, ?_⟩
            exact decide_eq_true hw
          · exact ⟨g2, conns0, by rw [alGet_alSet, if_neg hgg]; exact hg2, hm0⟩
        · rintro ⟨g2, conns0, hg2, hm0⟩
          rcases alSet_slots _ _ _ _ _ hg2 with ⟨hgg, hce⟩ | ⟨hgg, hold⟩
          · rw [hce] at hm0
            exact (hmc w2).mpr ⟨g, conns, h, (hcece w2 hm0).1⟩
          · exact (hmc w2).mpr ⟨g2, conns0, hold, hm0⟩
    · intro g2 g3 conns2 conns3 w2 hg2 hg3 hm2 hm3
      rw [hac] at hg2 hg3
      rcases alSet_slots _ _ _ _ _ hg2 with ⟨hgg2, hce2⟩ | ⟨hgg2, hold2⟩ <;>
        rcases alSet_slots _ _ _ _ _ hg3 with ⟨hgg3, hce3⟩ | ⟨hgg3, hold3⟩
      · rw [hgg2, hgg3]
      · rw [hce2] at hm2
        rw [hgg2]
        exact (hone g3 g conns3 conns w2 hold3 h hm3 (hcece w2 hm2).1).symm
      · rw [hce3] at hm3
        rw [hgg3]
        exact hone g2 g conns2 conns w2 hold2 h hm2 (hcece w2 hm3).1
      · exact hone g2 g3 conns2 conns3 w2 hold2 hold3 hm2 hm3

lemma onlyIn_pruneConnection (s : WSState) (g c c2 g2 : Nat)
    (honly : OnlyInGroup s c2 g2) : OnlyInGroup (pruneConnection s g c) c2 g2 := by
  intro g3 conns3 hg3 hm3
  cases h : alGet s.active_connections g with
  | none =>
    have hac : (pruneConnection s g c).active_connections = s.active_connections := by
      unfold pruneConnection
      rw [h]
    rw [hac] at hg3
    exact honly g3 conns3 hg3 hm3
  | some conns =>
    have hac : (pruneConnection s g c).active_connections =
        alSet s.active_connections g (conns.filter (fun x => x ≠ c)) := by
      unfold pruneConnection
      rw [h]
    rw [hac] at hg3
    rcases alSet_slots _ _ _ _ _ hg3 with ⟨hgg, hce⟩ | ⟨hgg, hold⟩
    · rw [hce] at hm3
      rw [hgg]
      exact honly g conns h (List.mem_filter.mp hm3).1
    · exact honly g3 conns3 hold hm3

lemma inv_pruneFold (g : Nat) :
    ∀ (l : List Nat) (s : WSState), MapsConsistent s → AtMostOneGroup s →
      (∀ c ∈ l, OnlyInGroup s c g) →
      MapsConsistent (l.foldl (fun st c => pruneConnection st g c) s) ∧
      AtMostOneGroup (l.foldl (fun st c => pruneConnection st g c) s) := by
  intro l
  induction l with
  | nil =>
    intro s hmc hone _
    exact ⟨hmc, hone⟩
  | cons c rest ih =>
    intro s hmc hone hall
    have hstep := inv_pruneConnection s g c hmc hone (hall c (by simp))
    have hrest := ih (pruneConnection s g c) hstep.1 hstep.2
      (fun x hx => onlyIn_pruneConnection s g c x g (hall x (by simp [hx])))
    rw [List.foldl_cons]
    exact hrest

lemma inv_broadcast (s : WSState) (g : Nat) (exc : Option Nat) (failed : Nat → Bool)
    (hmc : MapsConsistent s) (hone : AtMostOneGroup s) :
    MapsConsistent (broadcast_to_group s g exc failed).state ∧
    AtMostOneGroup (broadcast_to_group s g exc failed).state := by
  rw [broadcast_state]
  apply inv_pruneFold g _ s hmc hone
  intro c hc
  have hc0 : c ∈ (alGet s.active_connections g).getD [] :=
    (List.mem_filter.mp (List.mem_filter.mp hc).1).1
  cases h : alGet s.active_connections g with
  | none =>
    rw [h] at hc0
    simp at hc0
  | some conns =>
    rw [h] at hc0
    exact onlyIn_of_mem s g c conns hone h (by simpa using hc0)

lemma inv_disconnect (s : WSState) (ws g : Nat)
    (hmc : MapsConsistent s) (hone : AtMostOneGroup s)
    (honly : OnlyInGroup s ws g) :
    MapsConsistent (ws_disconnect s ws g).1 ∧ AtMostOneGroup (ws_disconnect s ws g).1 := by
  have hwu : (ws_disconnect s ws g).1.websocket_users = alErase s.websocket_users ws := rfl
  cases h : alGet s.active_connections g with
  | none =>
    have hac : (ws_disconnect s ws g).1.active_connections = s.active_connections := by
      unfold ws_disconnect
      rw [h]
    constructor
    · intro w2
      rw [hwu, hac, alGet_alErase]
      by_cases hw : w2 = ws
      · rw [if_pos hw]
        simp only [Option.isSome_none, Bool.false_eq_true, false_iff]
        rintro ⟨g2, conns0, hg2, hm0⟩
        have hgg := honly g2 conns0 hg2 (hw ▸ hm0)
        rw [hgg, h] at hg2
        exact absurd hg2 (by simp)
      · rw [if_neg hw]
        exact hmc w2
    · intro g2 g3 conns2 conns3 w2 hg2 hg3 hm2 hm3
      rw [hac] at hg2 hg3
      exact hone g2 g3 conns2 conns3 w2 hg2 hg3 hm2 hm3
  | some conns =>
    by_cases hemp : (conns.filter (fun x => x ≠ ws)).isEmpty
    · have hall : ∀ x ∈ conns, x = ws := by
        intro x hx
        by_contra hbad
        have hmemf : x ∈ conns.filter (fun x => x ≠ ws) :=
          List.mem_filter.mpr ⟨hx, decide_eq_true hbad⟩
        rw [List.isEmpty_iff] at hemp
        rw [hemp] at hmemf
        simp at hmemf
      have hac : (ws_disconnect s ws g).1.active_connections =
          alErase s.active_connections g := by
        unfold ws_disconnect
        rw [h]
        show (if (conns.filter (fun x => x ≠ ws)).isEmpty then alErase s.active_connections g
          else alSet s.active_connections g (conns.filter (fun x => x ≠ ws))) = _
        rw [if_pos hemp]
      constructor
      · intro w2
        rw [hwu, hac, alGet_alErase]
        by_cases hw : w2 = ws
        · rw [if_pos hw]
          simp only [Option.isSome_none, Bool.false_eq_true, false_iff]
          rintro ⟨g2, conns0, hg2, hm0⟩
          rcases alErase_slots _ _ _ _ hg2 with ⟨hgg, hold⟩
          exact hgg (honly g2 conns0 hold (hw ▸ hm0))
        · rw [if_neg hw]
          constructor
          · intro hsome
            rcases (hmc w2).mp hsome with ⟨g2, conns0, hg2, hm0⟩
            by_cases hgg : g2 = g
            · subst hgg
              rw [hg2] at h
              injection h with h
              rw [h] at hm0
              exact absurd (hall w2 hm0) hw
            · exact ⟨g2, conns0, by rw [alGet_alErase, if_neg hgg]; exact hg2, hm0⟩
          · rintro ⟨g2, conns0, hg2, hm0⟩
            rcases alErase_slots _ _ _ _ hg2 with ⟨hgg, hold⟩
            exact (hmc w2).mpr ⟨g2, conns0, hold, hm0⟩
      · intro g2 g3 conns2 conns3 w2 hg2 hg3 hm2 hm3
        rw [hac] at hg2 hg3
        rcases alErase_slots _ _ _ _ hg2 with ⟨-, hold2⟩
        rcases alErase_slots _ _ _ _ hg3 with ⟨-, hold3⟩
        exact hone g2 g3 conns2 conns3 w2 hold2 hold3 hm2 hm3
    · have hac : (ws_disconnect s ws g).1.active_connections =
          alSet s.active_connections g (conns.filter (fun x => x ≠ ws)) := by
        unfold ws_disconnect
        rw [h]
        show (if (conns.filter (fun x => x ≠ ws)).isEmpty then alErase s.active_connections g
          else alSet s.active_connections g (conns.filter (fun x => x ≠ ws))) = _
        rw [if_neg hemp]
      have hcece : ∀ w2, w2 ∈ conns.filter (fun x => x ≠ ws) → w2 ∈ conns ∧ w2 ≠ ws := by
        intro w2 hw2
        rcases List.mem_filter.mp hw2 with ⟨hm, hd⟩
        exact ⟨hm, by simpa using hd⟩
      constructor
      · intro w2
        rw [hwu, hac, alGet_alErase]
        by_cases hw : w2 = ws
        · rw [if_pos hw]
          simp only [Option.isSome_none, Bool.false_eq_true, false_iff]
          rintro ⟨g2, conns0, hg2, hm0⟩
          rcases alSet_slots _ _ _ _ _ hg2 with ⟨hgg, hce⟩ | ⟨hgg, hold⟩
          · rw [hce] at hm0
            exact (hcece w2 hm0).2 hw
          · exact hgg (honly g2 conns0 hold (hw ▸ hm0))
        · rw [if_neg hw]
          constructor
          · intro hsome
            rcases (hmc w2).mp hsome with ⟨g2, conns0, hg2, hm0⟩
            by_cases hgg : g2 = g
            · subst hgg
              rw [hg2] at h
              injection h with h
              refine ⟨g2, conns.filter (fun x => x ≠ ws),
                by rw [alGet_alSet, if_pos rfl], ?_⟩
              refine List.mem_filter.mpr ⟨by rw [h] at hm0; exact hm0, decide_eq_true hw⟩
            · exact ⟨g2, conns0, by rw [alGet_alSet, if_neg hgg]; exact hg2, hm0⟩
          · rintro ⟨g2, conns0, hg2, hm0⟩
            rcases alSet_slots _ _ _ _ _ hg2 with ⟨hgg, hce⟩ | ⟨hgg, hold⟩
            · rw [hce] at hm0
              exact (hmc w2).mpr ⟨g, conns, h, (hcece w2 hm0).1⟩
            · exact (hmc w2).mpr ⟨g2, conns0, hold, hm0⟩
      · intro g2 g3 conns2 conns3 w2 hg2 hg3 hm2 hm3
        rw [hac] at hg2 hg3
        rcases alSet_slots _ _ _ _ _ hg2 with ⟨hgg2, hce2⟩ | ⟨hgg2, hold2⟩ <;>
          rcases alSet_slots _ _ _ _ _ hg3 with ⟨hgg3, hce3⟩ | ⟨hgg3, hold3⟩
        · rw [hgg2, hgg3]
        · rw [hce2] at hm2
          rw [hgg2]
          exact (hone g3 g conns3 conns w2 hold3 h hm3 (hcece w2 hm2).1).symm
        · rw [hce3] at hm3
          rw [hgg3]
          exact hone g2 g conns2 conns w2 hold2 h hm2 (hcece w2 hm3).1
        · exact hone g2 g3 conns2 conns3 w2 hold2 hold3 hm2 hm3

/-- C9: every registry operation, invoked the way the endpoint invokes it
(a connect uses a fresh connection handle, a disconnect names the group
its connection belongs to), keeps the two maps mutually consistent: a
connection is a key of the reverse user map exactly when it sits in some
group's forward connection set; the single-group property is preserved
alongside. -/
theorem registry_maps_consistent (s : WSState) (op : RegistryOp)
    (hmc : MapsConsistent s) (hone : AtMostOneGroup s)
    (hpre : RegistryOpPrecond s op) :
    MapsConsistent (applyRegistryOp s op) ∧ AtMostOneGroup (applyRegistryOp s op) := by
  cases op with
  | connect ws group_id user_id =>
    exact inv_registerConnection s ws group_id user_id hmc hone hpre
  | disconnect ws group_id =>
    exact inv_disconnect s ws group_id hmc hone hpre
  | broadcast group_id exc failed =>
    exact inv_broadcast s group_id exc failed hmc hone

/-- The empty registry. -/
def wsEmpty : WSState := { active_connections := [], websocket_users := [] }

/-- C9 witness: starting from the empty registry, a connect followed by a
broadcast that prunes the lone failing connection keeps both maps
consistent. -/
theorem registry_maps_consistent_witness :
    MapsConsistent (applyRegistryOp (applyRegistryOp wsEmpty (RegistryOp.connect 102 1 9))
      (RegistryOp.broadcast 1 none (fun c => c == 102))) ∧
    AtMostOneGroup (applyRegistryOp (applyRegistryOp wsEmpty (RegistryOp.connect 102 1 9))
      (RegistryOp.broadcast 1 none (fun c => c == 102))) := by
  have hmc0 : MapsConsistent wsEmpty := by
    intro ws
    simp [wsEmpty, alGet]
  have hone0 : AtMostOneGroup wsEmpty := by
    intro g g2 conns conns2 ws hg
    simp [wsEmpty, alGet] at hg
  have h1 := registry_maps_consistent wsEmpty (RegistryOp.connect 102 1 9) hmc0 hone0
    (by rfl)
  exact registry_maps_consistent _ (RegistryOp.broadcast 1 none (fun c => c == 102))
    h1.1 h1.2 trivial

end Rebelz
